import Mathlib

/-!
Verification development for the call-report data collector.

The development shallowly embeds three parts of the repository:

* the XBRL record-extraction pipeline (`src/code/xbrl/process_file.py`);
* the stateful FFIEC portal client (`src/ffiec_data_collector/downloader.py`);
* the webpage thumbprint / drift-detection layer
  (`src/ffiec_data_collector/thumbprint.py`).

Modelling conventions:

* Python numbers are embedded as `Int` / unnormalized fractions (`PyRat`);
  float division is modelled as exact fraction formation (exact for every
  concrete value appearing in the statements below). `PyRat.toRat` gives the
  rational value of a fraction.
* Python exceptions are embedded as `Except` with an explicit error type, and
  stateful methods return the state both on success and on the error path
  (the state at raise time), so absence of mutation on error paths is a
  provable statement.
* Network traffic is embedded as an explicit `Server` oracle supplied to each
  operation; the operations also return the list of POST bodies they issued.
* Cryptographic digests (`hashlib.sha256` / `hashlib.md5`) cannot be embedded;
  each is modelled as an injective function of its input string (the digest is
  represented by the canonical pre-image itself, i.e. collision-freeness of
  the digest is assumed).
* Core `String` operations (`splitOn`, `replace`, `endsWith`) are re-modelled
  over character lists so that every definition evaluates inside the kernel.
-/

/-! ## Python string and number primitives -/

/-- Substring test: models Python's `needle in hay`. -/
def strContains (hay needle : String) : Bool :=
  hay.data.tails.any (fun t => needle.data.isPrefixOf t)

/-- Suffix test: models Python's `str.endswith` / Lean's `String.endsWith`. -/
def strEndsWith (s suf : String) : Bool :=
  suf.data.isSuffixOf s.data

/-- Splits a character list on a separator character; models Python's
`str.split(sep)` for a one-character separator (no maxsplit). -/
def splitOnCharL (sep : Char) : List Char → List (List Char)
  | [] => [[]]
  | c :: rest =>
      if c = sep then [] :: splitOnCharL sep rest
      else
        match splitOnCharL sep rest with
        | g :: gs => (c :: g) :: gs
        | [] => [[c]]

/-- String wrapper for `splitOnCharL`. -/
def pySplit (s : String) (sep : Char) : List String :=
  (splitOnCharL sep s.data).map (fun l => String.mk l)

/-- Fuel-driven core of `pyReplace` (structural recursion on the fuel so the
kernel can evaluate it; the fuel is an upper bound on the number of steps and
is set to the length of the scanned list). -/
def replaceGo (pat repl : List Char) : Nat → List Char → List Char
  | _, [] => []
  | 0, l => l
  | fuel + 1, c :: rest =>
      if pat.isPrefixOf (c :: rest) ∧ pat ≠ [] then
        repl ++ replaceGo pat repl fuel (rest.drop (pat.length - 1))
      else
        c :: replaceGo pat repl fuel rest

/-- Replaces every occurrence of a nonempty pattern, left to right,
non-overlapping; models Python's `str.replace` (and `String.replace`). -/
def pyReplace (s pat repl : String) : String :=
  String.mk (replaceGo pat.data repl.data s.data.length s.data)

/-- Value of a list of decimal digit characters. -/
def digitsToNat (l : List Char) : Nat :=
  l.foldl (fun a c => a * 10 + (c.toNat - 48)) 0

/-- An exact, unnormalized fraction: the embedding of a Python float. The
denominator is kept as produced by the arithmetic (no gcd reduction) so that
every operation evaluates inside the kernel; `PyRat.toRat` interprets the
fraction as a rational number. -/
structure PyRat where
  num : Int
  den : Nat
deriving DecidableEq

/-- Rational value of a `PyRat`. -/
def PyRat.toRat (x : PyRat) : ℚ :=
  (x.num : ℚ) / (x.den : ℚ)

/-- Models Python `int(s)` on strings: optional surrounding whitespace,
optional sign, then decimal digits (digit-group underscores are not
modelled). Returns `none` where Python raises `ValueError`. -/
def parsePyInt (s : String) : Option Int :=
  let t := ((s.data.dropWhile Char.isWhitespace).reverse.dropWhile
    Char.isWhitespace).reverse
  match t with
  | [] => none
  | '+' :: ds =>
      if ds ≠ [] ∧ ds.all Char.isDigit then some (digitsToNat ds) else none
  | '-' :: ds =>
      if ds ≠ [] ∧ ds.all Char.isDigit then some (-(digitsToNat ds : Int))
      else none
  | ds =>
      if ds.all Char.isDigit then some (digitsToNat ds) else none

/-- Core of `parsePyFloat`: parses unsigned decimal digits with an optional
single decimal point into an exact fraction. -/
def parsePyFloatCore (u : List Char) : Option PyRat :=
  let intPart := u.takeWhile Char.isDigit
  let rest := u.dropWhile Char.isDigit
  match rest with
  | [] => if intPart ≠ [] then some ⟨digitsToNat intPart, 1⟩ else none
  | '.' :: fracPart =>
      if fracPart.all Char.isDigit ∧ (intPart ≠ [] ∨ fracPart ≠ []) then
        some ⟨digitsToNat intPart * 10 ^ fracPart.length +
          digitsToNat fracPart, 10 ^ fracPart.length⟩
      else none
  | _ => none

/-- Models Python `float(s)` restricted to plain decimal literals: optional
surrounding whitespace, optional sign, decimal digits with an optional single
decimal point (exponents and the special values `inf`/`nan` are not
modelled). The result is the exact value as a fraction. -/
def parsePyFloat (s : String) : Option PyRat :=
  let t := ((s.data.dropWhile Char.isWhitespace).reverse.dropWhile
    Char.isWhitespace).reverse
  match t with
  | '+' :: u => parsePyFloatCore u
  | '-' :: u => (parsePyFloatCore u).map (fun q => ⟨-q.num, q.den⟩)
  | u => parsePyFloatCore u

/-- Python `int(x)` applied to a float: truncation toward zero, modelled on
the exact fraction. -/
def pyTrunc (x : PyRat) : Int :=
  if 0 ≤ x.num then (x.num.natAbs / x.den : Nat)
  else -((x.num.natAbs / x.den : Nat) : Int)

/-- Decidable equality for embedded Python exceptions and results. -/
instance {ε α : Type} [DecidableEq ε] [DecidableEq α] :
    DecidableEq (Except ε α)
  | .ok x, .ok y =>
      if h : x = y then .isTrue (by rw [h]) else .isFalse (by simp [h])
  | .ok _, .error _ => .isFalse (by simp)
  | .error _, .ok _ => .isFalse (by simp)
  | .error e, .error f =>
      if h : e = f then .isTrue (by rw [h]) else .isFalse (by simp [h])

/-! ## The XBRL record extractor (`src/code/xbrl/process_file.py`) -/

/-- Python exception classes that the embedded code can raise. -/
inductive PyError where
  | valueError (msg : String)
  | typeError
  | attributeError
  | indexError
deriving DecidableEq

/-- Tries to match the regex `[0-9]{4}-[0-9]{2}-[0-9]{2}` (`re_date` in
`process_file.py`) at the head of the character list, returning the matched
ten characters. -/
def matchDateAt (l : List Char) : Option (List Char) :=
  match l with
  | a :: b :: c :: d :: '-' :: e :: f :: '-' :: g :: h :: _ =>
      if [a, b, c, d, e, f, g, h].all Char.isDigit then
        some [a, b, c, d, '-', e, f, '-', g, h]
      else none
  | _ => none

/-- Fuel-driven core of `findDates` (structural recursion on the fuel so the
kernel can evaluate it; the fuel is set to the length of the scanned list). -/
def findDatesGo : Nat → List Char → List (List Char)
  | _, [] => []
  | 0, _ => []
  | fuel + 1, c :: rest =>
      match matchDateAt (c :: rest) with
      | some d => d :: findDatesGo fuel (rest.drop 9)
      | none => findDatesGo fuel rest

/-- Models `re_date.findall`: all non-overlapping matches of
`[0-9]{4}-[0-9]{2}-[0-9]{2}`, scanning left to right. -/
def findDates (s : String) : List String :=
  (findDatesGo s.data.length s.data).map (fun l => String.mk l)

/-- One leaf data element of the parsed XBRL attribute tree: the
`@contextRef` / `@unitRef` attributes and the `#text` body, each possibly
absent (Python `dict.get` returns `None`). -/
structure XbrlItem where
  contextRef : Option String
  unitRef : Option String
  text : Option String
deriving DecidableEq

/-- The value stored under a parsed key: `xmltodict` yields either a single
dictionary or a list of dictionaries; `process_xbrl_item` wraps a single
dictionary into a one-element list. -/
inductive XbrlItems where
  | single (item : XbrlItem)
  | list (items : List XbrlItem)

/-- A Python value as it sits in the intermediate row dictionary built by
`process_xbrl_item`: a number (int or float, both embedded as an exact
fraction), a boolean, or the original `#text` payload (a string or `None`). -/
inductive PyVal where
  | num (q : PyRat)
  | bool (b : Bool)
  | noneOrStr (s : Option String)
deriving DecidableEq

/-- Intermediate row produced by `process_xbrl_item` (lines 75-112 of
`process_file.py`). -/
structure ItemRow where
  mdrm : String
  rssd : String
  value : PyVal
  data_type : String
  quarter : String
deriving DecidableEq

/-- The typed value slot of a final record: exactly one of `int_data`,
`float_data`, `str_data`, `bool_data` is populated, mirroring the dictionary
built in `process_xml` (lines 121-147). `noSlot` covers the (unreachable)
case of an unrecognized `data_type`, where the Python code would emit a row
with no value slot. -/
inductive Slot where
  | intData (n : Int)
  | floatData (v : PyVal)
  | strData (v : PyVal)
  | boolData (v : PyVal)
  | noSlot
deriving DecidableEq

/-- Final flat record emitted by `process_xml`. -/
structure RetRow where
  mdrm : String
  rssd : String
  quarter : String
  data_type : String
  slot : Slot
deriving DecidableEq

/-- Loop body of `process_xbrl_item` for one data element (lines 80-110 of
`process_file.py`). Returns the row or the Python exception raised:
a missing `@contextRef` makes `context.split` raise `AttributeError`; a
context without a `_`-delimited second field raises `IndexError`; a context
without an embedded `YYYY-MM-DD` date raises `IndexError` (from
`re_date.findall(context)[0]`); a non-numeric payload under a numeric unit
raises `ValueError` (or `TypeError` when the payload is `None`). -/
def process_one_item (name : String) (item : XbrlItem) :
    Except PyError ItemRow := do
  let mdrm := pyReplace (pyReplace name "cc:" "") "uc:" ""
  match item.contextRef with
  | none => throw .attributeError
  | some ctx =>
    let rssd ← match pySplit ctx '_' with
      | _ :: r :: _ => pure r
      | _ => throw .indexError
    let quarter ← match findDates ctx with
      | q :: _ => pure q
      | [] => throw .indexError
    if item.unitRef = some "USD" then
      match item.text with
      | none => throw .typeError
      | some v =>
        match parsePyInt v with
        | none => throw (.valueError "invalid literal for int")
        | some n => pure ⟨mdrm, rssd, .num ⟨n, 1000⟩, "int", quarter⟩
    else if item.unitRef = some "PURE" ∨ item.unitRef = some "NON-MONETARY" then
      match item.text with
      | none => throw .typeError
      | some v =>
        match parsePyFloat v with
        | none => throw (.valueError "could not convert string to float")
        | some q => pure ⟨mdrm, rssd, .num q, "float", quarter⟩
    else if item.text = some "true" then
      pure ⟨mdrm, rssd, .bool true, "bool", quarter⟩
    else if item.text = some "false" then
      pure ⟨mdrm, rssd, .bool false, "bool", quarter⟩
    else
      pure ⟨mdrm, rssd, .noneOrStr item.text, "str", quarter⟩

/-- Models `process_xbrl_item` (lines 75-112): normalizes a single element to
a one-element list and processes every element; the first exception raised
aborts the whole call. -/
def process_xbrl_item (name : String) (items : XbrlItems) :
    Except PyError (List ItemRow) :=
  let l := match items with
    | .single item => [item]
    | .list items => items
  l.mapM (process_one_item name)

/-- Loop body of the `ret_data` construction in `process_xml` (lines
122-147): converts an intermediate row into the final record, truncating the
scaled value to an integer for `data_type == 'int'` (`int(row['value'])`
raises `TypeError` on a non-number, which is unreachable). -/
def to_ret_row (row : ItemRow) : Except PyError RetRow := do
  let slot ←
    if row.data_type = "int" then
      match row.value with
      | .num q => pure (Slot.intData (pyTrunc q))
      | _ => throw .typeError
    else if row.data_type = "float" then
      pure (Slot.floatData row.value)
    else if row.data_type = "str" then
      pure (Slot.strData row.value)
    else if row.data_type = "bool" then
      pure (Slot.boolData row.value)
    else
      pure Slot.noSlot
  pure ⟨row.mdrm, row.rssd, row.quarter, row.data_type, slot⟩

/-- A parsed XBRL document: the association list of top-level keys of
`xmltodict.parse(data)['xbrl']` with their values. -/
def XbrlDoc : Type := List (String × XbrlItems)

/-- Models `process_xml` (lines 72-154) at the record level: selects the keys
containing `cc:` followed by those containing `uc:`, runs
`process_xbrl_item` on each (the first exception raised anywhere aborts the
whole document), flattens, and converts every intermediate row to a final
record. The JSON text serialization to the temp file is not modelled; the
function's value is the record sequence the serialization would contain. -/
def process_xml (doc : XbrlDoc) : Except PyError (List RetRow) := do
  let keys_cc := doc.filter (fun kv => strContains kv.1 "cc:")
  let keys_uc := doc.filter (fun kv => strContains kv.1 "uc:")
  let rows ← (keys_cc ++ keys_uc).mapM
    (fun kv => process_xbrl_item kv.1 kv.2)
  rows.flatten.mapM to_ret_row

/-- One member of the downloaded archive. `doc = none` models a member whose
bytes fail to decode or parse as XBRL (any such exception is raised inside
`process_xml` and caught by the caller). -/
structure XbrlArchiveMember where
  filename : String
  doc : Option XbrlDoc

/-- Models `process_xbrl_file` (lines 19-60) at the record level: processes
only members whose filename ends in `.xml` and contains `RSSD`; any
exception raised while processing one member is caught by the bare
`except` (line 53) and that member is skipped, the rest of the archive
continuing. Returns the per-member record sequences in archive order (the
JSON concatenation written to the temp file is not modelled). -/
def process_xbrl_file (members : List XbrlArchiveMember) :
    List (List RetRow) :=
  members.filterMap (fun m =>
    if strEndsWith m.filename ".xml" && strContains m.filename "RSSD" then
      match m.doc with
      | none => none
      | some doc => (process_xml doc).toOption
    else none)

/-! ## Dates (Python `datetime.strptime` / `strftime`) -/

/-- A calendar date as produced by `datetime.strptime`. -/
structure PyDate where
  year : Nat
  month : Nat
  day : Nat
deriving DecidableEq

/-- Gregorian leap-year rule. -/
def isLeapYear (y : Nat) : Bool :=
  y % 4 = 0 && (y % 100 ≠ 0 || y % 400 = 0)

/-- Number of days in a month. -/
def daysInMonth (y m : Nat) : Nat :=
  if m = 2 then (if isLeapYear y then 29 else 28)
  else if m = 4 ∨ m = 6 ∨ m = 9 ∨ m = 11 then 30
  else 31

/-- Calendar validity as enforced by `datetime` (year 1-9999). -/
def validDate (y m d : Nat) : Bool :=
  decide (1 ≤ y ∧ y ≤ 9999 ∧ 1 ≤ m ∧ m ≤ 12 ∧ 1 ≤ d ∧ d ≤ daysInMonth y m)

/-- Models `datetime.strptime(s, "%Y%m%d")` on an eight-character string:
four digit year, two digit month, two digit day, full calendar validation;
`none` where Python raises `ValueError`. -/
def strptimeYmd (s : String) : Option PyDate :=
  match s.data with
  | [y1, y2, y3, y4, m1, m2, d1, d2] =>
      if [y1, y2, y3, y4, m1, m2, d1, d2].all Char.isDigit then
        let y := digitsToNat [y1, y2, y3, y4]
        let m := digitsToNat [m1, m2]
        let d := digitsToNat [d1, d2]
        if validDate y m d then some ⟨y, m, d⟩ else none
      else none
  | _ => none

/-- Models `datetime.strptime(s, "%m/%d/%Y")`: one or two digit month and
day, up to four digit year, full calendar validation; `none` where Python
raises `ValueError`. -/
def strptimeMDY (s : String) : Option PyDate :=
  match splitOnCharL '/' s.data with
  | [ms, ds, ys] =>
      if ms ≠ [] ∧ ms.length ≤ 2 ∧ ms.all Char.isDigit ∧
         ds ≠ [] ∧ ds.length ≤ 2 ∧ ds.all Char.isDigit ∧
         ys ≠ [] ∧ ys.length ≤ 4 ∧ ys.all Char.isDigit then
        let m := digitsToNat ms
        let d := digitsToNat ds
        let y := digitsToNat ys
        if validDate y m d then some ⟨y, m, d⟩ else none
      else none
  | _ => none

/-- Fuel-driven decimal rendering of a natural number (most significant digit
first; empty for zero). -/
def natDigitsGo : Nat → Nat → List Char
  | 0, _ => []
  | fuel + 1, n =>
      if n = 0 then []
      else natDigitsGo fuel (n / 10) ++ [Char.ofNat (48 + n % 10)]

/-- Decimal rendering of a natural number. -/
def natToStr (n : Nat) : String :=
  if n = 0 then "0" else String.mk (natDigitsGo (n + 1) n)

/-- Zero-pads a number to two digits (`strftime` `%m` / `%d`). -/
def zfill2 (n : Nat) : String :=
  if n < 10 then "0" ++ natToStr n else natToStr n

/-- Zero-pads a number to four digits (`strftime` `%Y`). -/
def zfill4 (n : Nat) : String :=
  if n < 10 then "000" ++ natToStr n
  else if n < 100 then "00" ++ natToStr n
  else if n < 1000 then "0" ++ natToStr n
  else natToStr n

/-- Models `strftime("%m/%d/%Y")`. -/
def strftimeMDY (d : PyDate) : String :=
  zfill2 d.month ++ "/" ++ zfill2 d.day ++ "/" ++ zfill4 d.year

/-- Models `strftime("%m%d%Y")` (the filename date suffix). -/
def strftimeMDYCompact (d : PyDate) : String :=
  zfill2 d.month ++ zfill2 d.day ++ zfill4 d.year

/-- Models `strftime("%Y%m%d")` (the canonical date key). -/
def strftimeYmdCompact (d : PyDate) : String :=
  zfill4 d.year ++ zfill2 d.month ++ zfill2 d.day

/-- Strips whitespace on both ends; models Python's `str.strip()`. -/
def pyStrip (s : String) : String :=
  String.mk (((s.data.dropWhile Char.isWhitespace).reverse.dropWhile
    Char.isWhitespace).reverse)

/-! ## The FFIEC portal client (`src/ffiec_data_collector/downloader.py`) -/

/-- The `Product` enum (lines 15-56 of `downloader.py`). -/
inductive Product where
  | CALL_SINGLE
  | CALL_FOUR_PERIODS
  | UBPR_RATIO_SINGLE
  | UBPR_RATIO_FOUR
  | UBPR_RANK_FOUR
  | UBPR_STATS_FOUR
deriving DecidableEq

/-- The protocol form value of a product. -/
def Product.form_value : Product → String
  | .CALL_SINGLE => "ReportingSeriesSinglePeriod"
  | .CALL_FOUR_PERIODS => "ReportingSeriesSubsetSchedulesFourPeriods"
  | .UBPR_RATIO_SINGLE => "PerformanceReportingSeriesSinglePeriod"
  | .UBPR_RATIO_FOUR => "PerformanceReportingSeriesFourPeriods"
  | .UBPR_RANK_FOUR => "PerformanceReportingSeriesRank"
  | .UBPR_STATS_FOUR => "PerformanceReportingSeriesStats"

/-- The human-readable label of a product. -/
def Product.display_name : Product → String
  | .CALL_SINGLE => "Call Reports -- Single Period"
  | .CALL_FOUR_PERIODS =>
      "Call Reports -- Balance Sheet, Income Statement, Past Due -- Four Periods"
  | .UBPR_RATIO_SINGLE => "UBPR Ratio -- Single Period"
  | .UBPR_RATIO_FOUR => "UBPR Ratio -- Four Periods"
  | .UBPR_RANK_FOUR => "UBPR Rank -- Four Periods"
  | .UBPR_STATS_FOUR => "UBPR Stats -- Four Periods"

/-- Derived predicate: `"Single" in display_name`. -/
def Product.is_single_period (p : Product) : Bool :=
  strContains p.display_name "Single"

/-- Derived predicate: `"Call" in display_name`. -/
def Product.is_call_report (p : Product) : Bool :=
  strContains p.display_name "Call"

/-- Derived predicate: `"UBPR" in display_name`. -/
def Product.is_ubpr (p : Product) : Bool :=
  strContains p.display_name "UBPR"

/-- The `FileFormat` enum (lines 59-84). -/
inductive FileFormat where
  | TSV
  | XBRL
deriving DecidableEq

/-- The protocol form value of a file format. -/
def FileFormat.form_value : FileFormat → String
  | .TSV => "TSVRadioButton"
  | .XBRL => "XBRLRadiobutton"

/-- A reporting period/quarter (lines 87-116): protocol form value plus the
`MM/DD/YYYY` display string. -/
structure ReportingPeriod where
  value : String
  date_str : String
deriving DecidableEq

/-- The parsed date of a period (`ReportingPeriod.date`); the Python property
raises on an unparsable string, modelled as `none`. -/
def ReportingPeriod.date (p : ReportingPeriod) : Option PyDate :=
  strptimeMDY p.date_str

/-- Quarter number 1-4 (`ReportingPeriod.quarter`). -/
def ReportingPeriod.quarter (p : ReportingPeriod) : Option Nat :=
  p.date.map (fun d => (d.month - 1) / 3 + 1)

/-- The canonical eight-digit date key (`ReportingPeriod.yyyymmdd`). -/
def ReportingPeriod.yyyymmdd (p : ReportingPeriod) : Option String :=
  p.date.map strftimeYmdCompact

/-- A download request (lines 119-142). -/
structure DownloadRequest where
  product : Product
  period : ReportingPeriod
  format : FileFormat
deriving DecidableEq

/-- Models `DownloadRequest.get_expected_filename` (lines 127-142); `none`
when the period's date string cannot be parsed (where the Python property
would raise). -/
def DownloadRequest.get_expected_filename (r : DownloadRequest) :
    Option String :=
  r.period.date.map (fun d =>
    let product_name :=
      if r.product.is_call_report then
        if r.product = Product.CALL_SINGLE then "Call Bulk"
        else "Call Bulk Subset of Schedules"
      else pyStrip (pyReplace r.product.display_name "--" "")
    let format_suffix := if r.format = FileFormat.XBRL then "XBRL" else "TSV"
    "FFIEC CDR" ++ " " ++ product_name ++ " " ++ format_suffix ++ " " ++
      strftimeMDYCompact d ++ ".zip")

/-- The mutable state of one `FFIECDownloader` instance (lines 191-197). -/
structure SessionState where
  viewstate : Option String
  viewstate_generator : Option String
  current_product : Option Product
  current_period : Option ReportingPeriod
  available_periods : List ReportingPeriod
  call_updated : Option PyDate
  ubpr_updated : Option PyDate
deriving DecidableEq

/-- A POST body: the ordered form fields, each value a string or `None`. -/
abbrev PostData : Type := List (String × Option String)

/-- An HTTP response: its body text and whether its `Content-Type` header
contains `text/html`. -/
structure HttpResponse where
  text : String
  contentTypeHtml : Bool
deriving DecidableEq

/-- The network, supplied as a deterministic oracle: the portal root page and
the response to each POST body. -/
structure Server where
  getRoot : HttpResponse
  post : PostData → HttpResponse

/-- Result of one client operation: the produced value or the raised
exception, together with the session state at return/raise time and the list
of POST bodies issued during the call. -/
inductive OpResult (α : Type) where
  | ok (val : α) (st : SessionState) (posts : List PostData)
  | err (e : PyError) (st : SessionState) (posts : List PostData)
deriving DecidableEq

/-- Suffix of the list strictly after the first occurrence of the (nonempty)
pattern; `none` if the pattern does not occur. -/
def dropThroughL (pat : List Char) : List Char → Option (List Char)
  | [] => none
  | c :: rest =>
      if pat.isPrefixOf (c :: rest) then some ((c :: rest).drop pat.length)
      else dropThroughL pat rest

/-- Splits at the first occurrence of a character: the part before it and the
part after it; `none` if the character does not occur. -/
def splitAtCharL (stop : Char) : List Char → Option (List Char × List Char)
  | [] => none
  | c :: rest =>
      if c = stop then some ([], rest)
      else (splitAtCharL stop rest).map (fun p => (c :: p.1, p.2))

/-- Splits at the first occurrence of a (nonempty) pattern: the part before
it and the part after it; `none` if the pattern does not occur. -/
def splitAtPatL (pat : List Char) : List Char → Option (List Char × List Char)
  | [] => none
  | c :: rest =>
      if pat.isPrefixOf (c :: rest) then some ([], (c :: rest).drop pat.length)
      else (splitAtPatL pat rest).map (fun p => (c :: p.1, p.2))

/-- Models `re.search(marker + '.*?value="([^"]+)"', html)`: finds the first
occurrence of the marker, then the first `value="` after it, and captures the
nonempty run up to the next quote (the regex `.` not matching newlines is not
modelled; portal markup keeps each attribute on one line). -/
def extractAttrValue (marker : String) (html : String) : Option String :=
  match dropThroughL marker.data html.data with
  | none => none
  | some rest =>
    match dropThroughL "value=\"".data rest with
    | none => none
    | some rest2 =>
      match splitAtCharL '"' rest2 with
      | none => none
      | some (captured, _) =>
          if captured = [] then none else some (String.mk captured)

/-- Models `FFIECDownloader._extract_viewstate` (lines 199-209): both the
`__VIEWSTATE` and `__VIEWSTATEGENERATOR` values, `none` where the method
raises `ValueError`. -/
def extract_viewstate (html : String) : Option (String × String) :=
  match extractAttrValue "name=\"__VIEWSTATE\"" html,
        extractAttrValue "name=\"__VIEWSTATEGENERATOR\"" html with
  | some v, some g => some (v, g)
  | _, _ => none

/-- Takes one or two leading digits. -/
def takeDigits2 (l : List Char) : Option (List Char × List Char) :=
  match l with
  | [] => none
  | [a] => if a.isDigit then some ([a], []) else none
  | a :: b :: rest =>
      if a.isDigit then
        if b.isDigit then some ([a, b], rest) else some ([a], b :: rest)
      else none

/-- Matches the regex `\d{1,2}/\d{1,2}/\d{4}` at the head of the list. -/
def matchSlashDate (l : List Char) : Option String :=
  match takeDigits2 l with
  | none => none
  | some (ms, rest) =>
    match rest with
    | '/' :: rest2 =>
      match takeDigits2 rest2 with
      | none => none
      | some (ds, rest3) =>
        match rest3 with
        | '/' :: y1 :: y2 :: y3 :: y4 :: _ =>
            if [y1, y2, y3, y4].all Char.isDigit then
              some (String.mk (ms ++ '/' :: ds ++ '/' :: [y1, y2, y3, y4]))
            else none
        | _ => none
    | _ => none

/-- Models `_extract_last_updated_dates` (lines 211-233) for one marker
(`"Call Updated: "` or `"UBPR Updated: "`): the date pattern captured right
after the first occurrence of the marker, parsed with `%m/%d/%Y`; any
failure yields `none` (the method swallows parse errors). -/
def extractUpdatedDate (marker : String) (html : String) : Option PyDate :=
  match dropThroughL marker.data html.data with
  | none => none
  | some rest =>
    match matchSlashDate rest with
    | none => none
    | some ds => strptimeMDY ds

/-- Python truthiness of `self._viewstate` (`None` and the empty string are
falsy). -/
def viewstateTruthy (st : SessionState) : Bool :=
  match st.viewstate with
  | none => false
  | some s => !s.data.isEmpty

/-- Models `FFIECDownloader.initialize` (lines 266-275): GET the root page,
extract the ViewState pair (raising `ValueError` when absent), then the two
last-updated dates. -/
def initializeSession (srv : Server) (st : SessionState) : OpResult Unit :=
  let html := srv.getRoot.text
  match extract_viewstate html with
  | none => .err (.valueError "Could not extract ViewState from page") st []
  | some (vs, gen) =>
      .ok () { st with
        viewstate := some vs
        viewstate_generator := some gen
        call_updated := extractUpdatedDate "Call Updated: " html
        ubpr_updated := extractUpdatedDate "UBPR Updated: " html } []

/-- Models `FFIECDownloader._post` (lines 244-264): issue the POST; when the
response is HTML, re-extract and store the fresh ViewState pair (raising
`ValueError` when absent — the state is then unchanged). -/
def client_post (srv : Server) (st : SessionState) (data : PostData) :
    Except (PyError × SessionState) (SessionState × HttpResponse) :=
  let resp := srv.post data
  if resp.contentTypeHtml then
    match extract_viewstate resp.text with
    | none => .error (.valueError "Could not extract ViewState from page", st)
    | some (vs, gen) =>
        .ok ({ st with viewstate := some vs, viewstate_generator := some gen },
          resp)
  else
    .ok (st, resp)

/-- Models the regex search
`<select name="ctl00\$MainContentHolder\$DatesDropDownList".*?>(.*?)</select>`
(lines 306-310): finds the literal opening, skips to the end of the opening
tag, and captures up to the closing `</select>` (non-greedy matching is
modelled as first-occurrence scanning). -/
def extractDatesSelect (html : String) : Option String :=
  match dropThroughL
      "<select name=\"ctl00$MainContentHolder$DatesDropDownList\"".data
      html.data with
  | none => none
  | some rest =>
    match splitAtCharL '>' rest with
    | none => none
    | some (_, rest2) =>
      match splitAtPatL "</select>".data rest2 with
      | none => none
      | some (content, _) => some (String.mk content)

/-- Parses one option at a position right after a literal `<option`: models
one match of `<option.*?value="([^"]+)".*?>([^<]+)</option>` (lines
315-317). -/
def parseOptionAt (l : List Char) : Option (String × String) :=
  match dropThroughL "value=\"".data l with
  | none => none
  | some rest =>
    match splitAtCharL '"' rest with
    | none => none
    | some (v, rest2) =>
      if v = [] then none
      else
        match splitAtCharL '>' rest2 with
        | none => none
        | some (_, rest3) =>
          match splitAtCharL '<' rest3 with
          | none => none
          | some (t, rest4) =>
            if t = [] then none
            else if "/option>".data.isPrefixOf rest4 then
              some (String.mk v, String.mk t)
            else none

/-- Fuel-driven scan for all `<option ... value="..." ...>text</option>`
matches (structural recursion on the fuel, set to the length of the scanned
list). Matches are searched from every occurrence of `<option`; this
coincides with Python's non-overlapping `findall` on markup where option
tags do not nest inside attribute values. -/
def findOptionsGo : Nat → List Char → List (String × String)
  | _, [] => []
  | 0, _ => []
  | fuel + 1, c :: rest =>
      if "<option".data.isPrefixOf (c :: rest) then
        match parseOptionAt ((c :: rest).drop 7) with
        | some vt => vt :: findOptionsGo fuel rest
        | none => findOptionsGo fuel rest
      else findOptionsGo fuel rest

/-- String wrapper for `findOptionsGo`. -/
def findOptions (s : String) : List (String × String) :=
  findOptionsGo s.data.length s.data

/-- The POST body of a product selection (lines 294-300). -/
def selectProductData (st : SessionState) (product : Product) : PostData :=
  [("__EVENTTARGET", some "ctl00$MainContentHolder$ListBox1"),
   ("__EVENTARGUMENT", some ""),
   ("__VIEWSTATE", st.viewstate),
   ("__VIEWSTATEGENERATOR", st.viewstate_generator),
   ("ctl00$MainContentHolder$ListBox1", some product.form_value)]

/-- Models `FFIECDownloader.select_product` (lines 281-323): auto-initialize
when the ViewState is not set, POST the product selection, record the
selected product, then parse the returned period selector. Raises
`ValueError` (`"No dates found for product ..."`) when the selector markup
is missing; otherwise returns the parsed period list — which the code
returns as-is, even when it is empty. -/
def select_product (srv : Server) (st : SessionState) (product : Product) :
    OpResult (List ReportingPeriod) :=
  let step1 : OpResult Unit :=
    if viewstateTruthy st then .ok () st [] else initializeSession srv st
  match step1 with
  | .err e st1 posts => .err e st1 posts
  | .ok _ st1 posts =>
    let data : PostData := selectProductData st1 product
    match client_post srv st1 data with
    | .error (e, st2) => .err e st2 (posts ++ [data])
    | .ok (st2, resp) =>
      let st3 := { st2 with current_product := some product }
      match extractDatesSelect resp.text with
      | none =>
          .err (.valueError ("No dates found for product " ++
            product.display_name)) st3 (posts ++ [data])
      | some content =>
          let periods := (findOptions content).map
            (fun vt => ReportingPeriod.mk vt.1 vt.2)
          .ok periods { st3 with available_periods := periods }
            (posts ++ [data])

/-- The `YYYYMMDD` → `MM/DD/YYYY` normalization step of
`_find_period_by_date` (lines 493-496): an eight-digit string is parsed with
`%Y%m%d` (raising `ValueError` on an invalid date) and re-rendered
slash-form; any other string is passed through unchanged. -/
def normalizeDateStr (s : String) : Except PyError String :=
  if s.length = 8 ∧ s.data.all Char.isDigit then
    match strptimeYmd s with
    | none =>
        .error (.valueError ("time data '" ++ s ++
          "' does not match format '%Y%m%d'"))
    | some d => .ok (strftimeMDY d)
  else
    .ok s

/-- Models `FFIECDownloader._find_period_by_date` (lines 472-502): falls back
to the session's available periods when the argument list is `None` or
empty, raises when no periods are available, normalizes an eight-digit date
key, then searches the list by display date string, raising `ValueError`
(`"Period ... not found in available periods"`) on no match. -/
def find_period_by_date (st : SessionState)
    (periodsArg : Option (List ReportingPeriod)) (date_str : String) :
    Except PyError ReportingPeriod :=
  let periods := match periodsArg with
    | some l => if l.isEmpty then st.available_periods else l
    | none => st.available_periods
  if periods.isEmpty then
    .error (.valueError "No periods available - select product first")
  else
    match normalizeDateStr date_str with
    | .error e => .error e
    | .ok ds =>
      match periods.find? (fun p => p.date_str == ds) with
      | some p => .ok p
      | none =>
          .error (.valueError ("Period " ++ ds ++
            " not found in available periods"))

/-- Argument of `select_period`: a `ReportingPeriod` or a raw date string. -/
inductive PeriodInput where
  | period (p : ReportingPeriod)
  | str (s : String)

/-- Models `FFIECDownloader.select_period` (lines 325-349): raises
`ValueError` (`"Must select product first"`) when no product is selected
(before any POST); resolves a string argument against the available period
list (raising before any POST on failure); then POSTs the period selection
and records the selected period. -/
def select_period (srv : Server) (st : SessionState) (input : PeriodInput) :
    OpResult Unit :=
  match st.current_product with
  | none => .err (.valueError "Must select product first") st []
  | some prod =>
    let resolved : Except PyError ReportingPeriod :=
      match input with
      | .str s => find_period_by_date st none s
      | .period p => .ok p
    match resolved with
    | .error e => .err e st []
    | .ok period =>
      let data : PostData := [
        ("__EVENTTARGET", some "ctl00$MainContentHolder$DatesDropDownList"),
        ("__EVENTARGUMENT", some ""),
        ("__VIEWSTATE", st.viewstate),
        ("__VIEWSTATEGENERATOR", st.viewstate_generator),
        ("ctl00$MainContentHolder$ListBox1", some prod.form_value),
        ("ctl00$MainContentHolder$DatesDropDownList", some period.value)]
      match client_post srv st data with
      | .error (e, st1) => .err e st1 [data]
      | .ok (st1, _) => .ok () { st1 with current_period := some period } [data]

/-- Models `FFIECDownloader.select_format` (lines 351-373): raises
`ValueError` (`"Must select product and period first"`) unless both a
product and a period are selected (before any POST); then POSTs the format
selection. -/
def select_format (srv : Server) (st : SessionState) (format : FileFormat) :
    OpResult Unit :=
  match st.current_product, st.current_period with
  | some prod, some per =>
    let data : PostData := [
      ("__EVENTTARGET", some ("ctl00$MainContentHolder$" ++ format.form_value)),
      ("__EVENTARGUMENT", some ""),
      ("__VIEWSTATE", st.viewstate),
      ("__VIEWSTATEGENERATOR", st.viewstate_generator),
      ("ctl00$MainContentHolder$ListBox1", some prod.form_value),
      ("ctl00$MainContentHolder$DatesDropDownList", some per.value),
      ("ctl00$MainContentHolder$FormatType", some format.form_value)]
    match client_post srv st data with
    | .error (e, st1) => .err e st1 [data]
    | .ok (st1, _) => .ok () st1 [data]
  | _, _ => .err (.valueError "Must select product and period first") st []

/-! ## The thumbprint layer (`src/ffiec_data_collector/thumbprint.py`) -/

/-- A form element on the page (`FormElement`, lines 22-34).
`options = none` models Python `None` (distinct from an empty list in the
f-string serialization used by `to_hash`). -/
structure FormElement where
  name : String
  id : String
  type : String
  options : Option (List String) := none
deriving DecidableEq

/-- A product option of the bulk-download page: one entry of the
`products` list of dictionaries (`{"value": ..., "text": ...}`). -/
structure ProductOpt where
  value : String
  text : String
deriving DecidableEq

/-- Models Python `sep.join(l)`. -/
def joinSep (sep : String) : List String → String
  | [] => ""
  | [x] => x
  | x :: y :: rest => x ++ sep ++ joinSep sep (y :: rest)

/-- Python `repr` of a string, as it appears inside `str(list)` /
f-string renderings (modelled without escaping: faithful for strings
containing no quote or backslash). -/
def pyReprStr (s : String) : String :=
  "'" ++ s ++ "'"

/-- Python `str` of a list of strings (`['a', 'b']`). -/
def pyReprList (l : List String) : String :=
  "[" ++ joinSep ", " (l.map pyReprStr) ++ "]"

/-- Python f-string rendering of `Optional[List[str]]`. -/
def pyReprOptList : Option (List String) → String
  | none => "None"
  | some l => pyReprList l

/-- Python `str` of a bool. -/
def pyStrBool (b : Bool) : String :=
  if b then "True" else "False"

/-- Python `str` of a product-option dictionary, as used by
`calculate_hash` (`str(p)`). -/
def ProductOpt.pyStr (p : ProductOpt) : String :=
  "\x7b'value': " ++ pyReprStr p.value ++ ", 'text': " ++ pyReprStr p.text ++
    "\x7d"

/-- The MD5 hex digest, modelled as an injective function of its input: the
digest is represented by the pre-image itself (collision-freeness of MD5 is
assumed). -/
def md5Hex (s : String) : String := s

/-- The SHA-256 hex digest, modelled as an injective function of its input:
the digest is represented by the pre-image itself (collision-freeness of
SHA-256 is assumed). -/
def sha256Hex (s : String) : String := s

/-- Models `FormElement.to_hash` (lines 31-34):
`md5(f"{name}|{id}|{type}|{options}")`. -/
def FormElement.to_hash (e : FormElement) : String :=
  md5Hex (e.name ++ "|" ++ e.id ++ "|" ++ e.type ++ "|" ++
    pyReprOptList e.options)

/-- JSON string escaping of one character (quote and backslash; the control
and non-ASCII escapes of `json.dumps` are not modelled — the hashed inputs
are hex digests). -/
def escChar (c : Char) : List Char :=
  if c = '"' ∨ c = '\\' then ['\\', c] else [c]

/-- A JSON string literal over a character list. -/
def encStrL (s : List Char) : List Char :=
  '"' :: (s.map escChar).flatten ++ ['"']

/-- Body of a JSON array of strings (comma-space separated). -/
def encListGo : List (List Char) → List Char
  | [] => []
  | [s] => encStrL s
  | s :: t :: rest => encStrL s ++ ',' :: ' ' :: encListGo (t :: rest)

/-- Models `json.dumps` on a list of strings. -/
def jsonDumps (l : List String) : String :=
  String.mk ('[' :: encListGo (l.map String.data) ++ [']'])

/-- Lexicographic comparison of character lists by code point (the order
Python's `sorted` uses on strings), as an executable Boolean. -/
def lexLeL : List Char → List Char → Bool
  | [], _ => true
  | _ :: _, [] => false
  | a :: as, b :: bs =>
      if a.toNat = b.toNat then lexLeL as bs
      else decide (a.toNat < b.toNat)

/-- Characters with equal code points are equal. -/
theorem charToNat_inj {a b : Char} (h : a.toNat = b.toNat) : a = b :=
  Char.eq_of_val_eq (UInt32.ext h)

/-- The lexicographic comparison is total. -/
theorem lexLeL_total : ∀ as bs, lexLeL as bs = true ∨ lexLeL bs as = true := by
  intro as
  induction as with
  | nil => intro bs; left; rfl
  | cons a as ih =>
    intro bs
    cases bs with
    | nil => right; rfl
    | cons b bs =>
      simp only [lexLeL]
      by_cases h : a.toNat = b.toNat
      · rw [if_pos h, if_pos h.symm]
        exact ih bs
      · rw [if_neg h, if_neg (fun hh => h hh.symm)]
        rcases Nat.lt_or_ge a.toNat b.toNat with hl | hg
        · left
          exact decide_eq_true hl
        · right
          exact decide_eq_true (by omega)

/-- The lexicographic comparison is transitive. -/
theorem lexLeL_trans : ∀ as bs cs, lexLeL as bs = true →
    lexLeL bs cs = true → lexLeL as cs = true := by
  intro as
  induction as with
  | nil => intro bs cs _ _; rfl
  | cons a as ih =>
    intro bs cs h1 h2
    cases bs with
    | nil => simp [lexLeL] at h1
    | cons b bs =>
      cases cs with
      | nil => simp [lexLeL] at h2
      | cons c cs =>
        simp only [lexLeL] at h1 h2 ⊢
        by_cases hab : a.toNat = b.toNat
        · rw [if_pos hab] at h1
          by_cases hbc : b.toNat = c.toNat
          · rw [if_pos hbc] at h2
            rw [if_pos (hab.trans hbc)]
            exact ih bs cs h1 h2
          · rw [if_neg hbc] at h2
            have hlt : b.toNat < c.toNat := of_decide_eq_true h2
            rw [if_neg (by omega)]
            exact decide_eq_true (by omega)
        · rw [if_neg hab] at h1
          have hlt : a.toNat < b.toNat := of_decide_eq_true h1
          by_cases hbc : b.toNat = c.toNat
          · rw [if_neg (by omega)]
            exact decide_eq_true (by omega)
          · rw [if_neg hbc] at h2
            have hlt2 : b.toNat < c.toNat := of_decide_eq_true h2
            rw [if_neg (by omega)]
            exact decide_eq_true (by omega)

/-- The lexicographic comparison is antisymmetric. -/
theorem lexLeL_antisymm : ∀ as bs, lexLeL as bs = true →
    lexLeL bs as = true → as = bs := by
  intro as
  induction as with
  | nil =>
    intro bs _ h2
    cases bs with
    | nil => rfl
    | cons b bs => simp [lexLeL] at h2
  | cons a as ih =>
    intro bs h1 h2
    cases bs with
    | nil => simp [lexLeL] at h1
    | cons b bs =>
      simp only [lexLeL] at h1 h2
      by_cases hab : a.toNat = b.toNat
      · rw [if_pos hab] at h1
        rw [if_pos hab.symm] at h2
        rw [charToNat_inj hab, ih bs h1 h2]
      · rw [if_neg hab] at h1
        rw [if_neg (fun hh => hab hh.symm)] at h2
        have := of_decide_eq_true h1
        have := of_decide_eq_true h2
        omega

/-- The sorting order used to model Python `sorted` on strings. -/
def strLe (a b : String) : Prop :=
  lexLeL a.data b.data = true

instance : DecidableRel strLe := fun a b =>
  inferInstanceAs (Decidable (lexLeL a.data b.data = true))

instance : IsTotal String strLe :=
  ⟨fun a b => lexLeL_total a.data b.data⟩

instance : IsTrans String strLe :=
  ⟨fun a b c => lexLeL_trans a.data b.data c.data⟩

instance : IsAntisymm String strLe := by
  constructor
  intro a b h1 h2
  cases a with
  | mk la =>
    cases b with
    | mk lb => exact congrArg String.mk (lexLeL_antisymm la lb h1 h2)

/-- Models Python `sorted` on strings (lexicographic by code point). -/
def pySortedStrings (l : List String) : List String :=
  List.insertionSort strLe l

/-- A structural snapshot of a portal page (`PageThumbprint`, lines 37-115).
The `Optional` list fields whose default is `None` are modelled as plain
lists with `None` identified with the empty list: every use in the source is
a truthiness test (`if self.products:`, `or []`), on which the two coincide.
The stored `structural_hash` field always equals `calculate_hash()` of the
other fields (it is set by `__post_init__` and round-tripped through the
baseline file), so it is modelled as the derived function
`PageThumbprint.calculate_hash` rather than a field. -/
structure PageThumbprint where
  url : String
  timestamp : String
  viewstate_present : Bool
  viewstate_generator_present : Bool
  version : String := "1.0"
  viewstate_generator_value : Option String := none
  form_elements : List FormElement := []
  products : List ProductOpt := []
  date_format_pattern : Option String := none
  download_button_ids : List String := []
  radio_button_ids : List String := []
  javascript_files : List String := []
  uses_dopostback : Bool := false
  uses_webform_postback : Bool := false
deriving DecidableEq

/-- Models `PageThumbprint.calculate_hash` (lines 67-87): the SHA-256 of the
pipe-joined canonical serialization — url, the two presence flags, the
generator value (empty for `None`), the sorted JSON array of form-element
hashes, and, when nonempty, the sorted JSON arrays of product dictionary
strings, download button ids, and radio button ids. The timestamp and the
`javascript_files` list do not enter the hash. -/
def PageThumbprint.calculate_hash (tp : PageThumbprint) : String :=
  let components := [
    tp.url,
    pyStrBool tp.viewstate_present,
    pyStrBool tp.viewstate_generator_present,
    (match tp.viewstate_generator_value with | none => "" | some v => v),
    jsonDumps (pySortedStrings (tp.form_elements.map FormElement.to_hash))]
  let components := components ++
    (if tp.products.isEmpty then []
     else [jsonDumps (pySortedStrings (tp.products.map ProductOpt.pyStr))])
  let components := components ++
    (if tp.download_button_ids.isEmpty then []
     else [jsonDumps (pySortedStrings tp.download_button_ids)])
  let components := components ++
    (if tp.radio_button_ids.isEmpty then []
     else [jsonDumps (pySortedStrings tp.radio_button_ids)])
  sha256Hex (joinSep "|" components)

/-- One difference message of `_compare_thumbprints`. The Python code
renders these as strings (interpolating sets, whose iteration order is
unspecified); the embedding keeps them structured. `firstRun` stands for the
advisory string `"First run - thumbprint saved"`. -/
inductive ChangeMsg where
  | viewstatePresenceChanged (stored current : Bool)
  | viewstateGeneratorChanged (stored current : Option String)
  | missingFormElements (missing : List (String × String × String))
  | newFormElements (added : List (String × String × String))
  | productOptionsChanged
  | downloadButtonsChanged
  | dopostbackChanged (stored current : Bool)
  | firstRun
deriving DecidableEq

/-- The `(name, id, type)` identification keys of a form-element list. -/
def elementKeys (es : List FormElement) : List (String × String × String) :=
  es.map (fun e => (e.name, e.id, e.type))

/-- Set difference of key lists (first occurrences, duplicates removed):
the embedding of Python set subtraction. -/
def keyDiff {K : Type} [DecidableEq K] (a b : List K) : List K :=
  (a.filter (fun k => !(b.contains k))).dedup

/-- Set equality of two lists (the embedding of Python `set(a) == set(b)`). -/
def listSetEqB {K : Type} [DecidableEq K] (a b : List K) : Bool :=
  a.all (fun x => b.contains x) && b.all (fun x => a.contains x)

/-- The diff produced by `_compare_thumbprints`. -/
structure Differences where
  critical_changes : List ChangeMsg
  warnings : List ChangeMsg
deriving DecidableEq

/-- Models `ThumbprintValidator._compare_thumbprints` (lines 316-372):
critical — ViewState presence flip, generator value change, previously-seen
form elements (by name+id+type) missing from the fresh capture, product
value sets differing (only when both captures have a nonempty product
list), download button id sets differing (only when both captures have a
nonempty id list); warnings — new form elements, `__doPostBack` flag
flip. -/
def compare_thumbprints (stored current : PageThumbprint) : Differences :=
  let c1 := if stored.viewstate_present ≠ current.viewstate_present then
    [ChangeMsg.viewstatePresenceChanged stored.viewstate_present
      current.viewstate_present] else []
  let c2 := if stored.viewstate_generator_value ≠
      current.viewstate_generator_value then
    [ChangeMsg.viewstateGeneratorChanged stored.viewstate_generator_value
      current.viewstate_generator_value] else []
  let missing := keyDiff (elementKeys stored.form_elements)
    (elementKeys current.form_elements)
  let c3 := if missing ≠ [] then [ChangeMsg.missingFormElements missing]
    else []
  let added := keyDiff (elementKeys current.form_elements)
    (elementKeys stored.form_elements)
  let w1 := if added ≠ [] then [ChangeMsg.newFormElements added] else []
  let c4 := if !stored.products.isEmpty && !current.products.isEmpty &&
      !(listSetEqB (stored.products.map (fun p => p.value))
        (current.products.map (fun p => p.value))) then
    [ChangeMsg.productOptionsChanged] else []
  let c5 := if !stored.download_button_ids.isEmpty &&
      !current.download_button_ids.isEmpty &&
      !(listSetEqB stored.download_button_ids current.download_button_ids) then
    [ChangeMsg.downloadButtonsChanged] else []
  let w2 := if stored.uses_dopostback ≠ current.uses_dopostback then
    [ChangeMsg.dopostbackChanged stored.uses_dopostback
      current.uses_dopostback] else []
  ⟨c1 ++ c2 ++ c3 ++ c4 ++ c5, w1 ++ w2⟩

/-- The on-disk baseline store: one optional thumbprint per page category
(`{page_type}_thumbprint.json` under the thumbprint directory). -/
abbrev ThumbprintStore := String → Option PageThumbprint

/-- Writes one baseline file. -/
def storeSave (store : ThumbprintStore) (page_type : String)
    (tp : PageThumbprint) : ThumbprintStore :=
  fun k => if k = page_type then some tp else store k

/-- The dictionary returned by `ThumbprintValidator.validate`. -/
structure ValidationResult where
  valid : Bool
  warnings : List ChangeMsg
  current_hash : String
  stored_hash : Option String
  last_validated : String
deriving DecidableEq

/-- Models `ThumbprintValidator.validate` (lines 269-314). The fresh capture
is supplied as `current` (the network fetch of `capture_thumbprint` is the
oracle input). With a stored baseline: compare, raise
`WebpageChangeException` (the error carries the critical list and the
unchanged store) when any critical change is present, otherwise report
validity, warnings, both hashes, and the baseline's capture time. With no
baseline: persist the capture as the new baseline and report success with
the first-run advisory. -/
def validate (store : ThumbprintStore) (page_type : String)
    (current : PageThumbprint) :
    Except (List ChangeMsg × ThumbprintStore)
      (ThumbprintStore × ValidationResult) :=
  match store page_type with
  | some stored =>
    if (compare_thumbprints stored current).critical_changes ≠ [] then
      .error ((compare_thumbprints stored current).critical_changes, store)
    else
      .ok (store,
        { valid := (compare_thumbprints stored current).critical_changes.isEmpty
          warnings := (compare_thumbprints stored current).warnings
          current_hash := current.calculate_hash
          stored_hash := some stored.calculate_hash
          last_validated := stored.timestamp })
  | none =>
      .ok (storeSave store page_type current,
        { valid := true
          warnings := [ChangeMsg.firstRun]
          current_hash := current.calculate_hash
          stored_hash := none
          last_validated := current.timestamp })

/-- The result dictionary of a `validate` call that returned normally
(`none` when the call raised). -/
def validateOutcome
    (x : Except (List ChangeMsg × ThumbprintStore)
      (ThumbprintStore × ValidationResult)) : Option ValidationResult :=
  match x with
  | .ok (_, r) => some r
  | .error _ => none

/-- The critical-change list of a `validate` call that raised
`WebpageChangeException` (`none` when the call returned normally). -/
def validateCritical
    (x : Except (List ChangeMsg × ThumbprintStore)
      (ThumbprintStore × ValidationResult)) : Option (List ChangeMsg) :=
  match x with
  | .ok _ => none
  | .error (e, _) => some e

/-- The baseline store after a `validate` call (on either path). -/
def storeAfter
    (x : Except (List ChangeMsg × ThumbprintStore)
      (ThumbprintStore × ValidationResult)) : ThumbprintStore :=
  match x with
  | .ok (s, _) => s
  | .error (_, s) => s

/-- The page categories of `KNOWN_THUMBPRINTS` (lines 124-148). -/
def KNOWN_THUMBPRINT_CATEGORIES : List String :=
  ["bulk_download", "taxonomy", "bhc_financial"]

/-- One per-category entry of the `validate_all` result: either the
`validate` dictionary or the `{"valid": False, "error": ...}` entry
synthesized from a caught exception. -/
inductive CatResult where
  | success (r : ValidationResult)
  | failure (critical : List ChangeMsg)
deriving DecidableEq

/-- The `valid` field of a per-category entry. -/
def CatResult.valid : CatResult → Bool
  | .success r => r.valid
  | .failure _ => false

/-- Models `ThumbprintValidator.validate_all` (lines 374-389): runs
`validate` for every known page category (the fresh capture for each
category supplied by the `caps` oracle), converting a raised
`WebpageChangeException` into a per-category failure entry instead of
aborting the batch; baseline writes thread through the iteration. -/
def validate_all (store : ThumbprintStore) (caps : String → PageThumbprint) :
    ThumbprintStore × List (String × CatResult) :=
  KNOWN_THUMBPRINT_CATEGORIES.foldl (fun acc cat =>
    match validate acc.1 cat (caps cat) with
    | .ok (store1, r) => (store1, acc.2 ++ [(cat, CatResult.success r)])
    | .error (e, store1) => (store1, acc.2 ++ [(cat, CatResult.failure e)]))
    (store, [])

/-! ## Support lemmas -/

/-- Right cancellation for string concatenation. -/
theorem strAppend_cancel_right {a b t : String} (h : a ++ t = b ++ t) :
    a = b := by
  cases a with
  | mk la =>
    cases b with
    | mk lb =>
      cases t with
      | mk lt =>
        have hd : la ++ lt = lb ++ lt := by
          have := congrArg String.data h
          simpa [String.data_append] using this
        exact congrArg String.mk (List.append_left_injective lt hd)

/-- Left cancellation for string concatenation. -/
theorem strAppend_cancel_left {s a b : String} (h : s ++ a = s ++ b) :
    a = b := by
  cases a with
  | mk la =>
    cases b with
    | mk lb =>
      cases s with
      | mk ls =>
        have hd : ls ++ la = ls ++ lb := by
          have := congrArg String.data h
          simpa [String.data_append] using this
        exact congrArg String.mk (List.append_right_injective ls hd)

/-- A `joinSep` of lists sharing a leading segment and a trailing segment
pins down the middle component. -/
theorem joinSep_middle_inj (sep : String) :
    ∀ (pre : List String) (x y : String) (suf : List String),
      joinSep sep (pre ++ x :: suf) = joinSep sep (pre ++ y :: suf) →
      x = y := by
  intro pre
  induction pre with
  | nil =>
    intro x y suf h
    cases suf with
    | nil => simpa [joinSep] using h
    | cons s ss =>
      simp only [List.nil_append, joinSep] at h
      have h2 : x ++ (sep ++ joinSep sep (s :: ss)) =
          y ++ (sep ++ joinSep sep (s :: ss)) := by
        simpa [String.append_assoc] using h
      exact strAppend_cancel_right h2
  | cons p pre ih =>
    intro x y suf h
    have hne1 : pre ++ x :: suf ≠ [] := by simp
    have hne2 : pre ++ y :: suf ≠ [] := by simp
    cases hpre : pre ++ x :: suf with
    | nil => exact absurd hpre hne1
    | cons a as =>
      cases hpre2 : pre ++ y :: suf with
      | nil => exact absurd hpre2 hne2
      | cons b bs =>
        simp only [List.cons_append, joinSep, hpre, hpre2] at h
        rw [← hpre, ← hpre2] at h
        have h2 : (p ++ sep) ++ joinSep sep (pre ++ x :: suf) =
            (p ++ sep) ++ joinSep sep (pre ++ y :: suf) := by
          simpa [String.append_assoc] using h
        exact ih x y suf (strAppend_cancel_left h2)


/-- The escaped body of a JSON string literal. -/
def escBody (s : List Char) : List Char :=
  (s.map escChar).flatten

/-- The escaped body followed by the closing quote is a prefix code. -/
theorem escBody_quote_inj : ∀ (s₁ s₂ t₁ t₂ : List Char),
    escBody s₁ ++ '"' :: t₁ = escBody s₂ ++ '"' :: t₂ →
    s₁ = s₂ ∧ t₁ = t₂ := by
  intro s₁
  induction s₁ with
  | nil =>
    intro s₂ t₁ t₂ h
    cases s₂ with
    | nil =>
      simp only [escBody, List.map_nil, List.flatten_nil, List.nil_append] at h
      exact ⟨rfl, (List.cons.inj h).2⟩
    | cons d s₂ =>
      by_cases hd : d = '"' ∨ d = '\\'
      · simp [escBody, escChar, hd] at h
      · simp only [escBody, List.map_cons, List.flatten_cons, escChar,
          if_neg hd, List.map_nil, List.flatten_nil, List.nil_append,
          List.cons_append, List.singleton_append] at h
        have := (List.cons.inj h).1
        push_neg at hd
        exact absurd this.symm hd.1
  | cons c s₁ ih =>
    intro s₂ t₁ t₂ h
    cases s₂ with
    | nil =>
      by_cases hc : c = '"' ∨ c = '\\'
      · simp [escBody, escChar, hc] at h
      · simp only [escBody, List.map_cons, List.flatten_cons, escChar,
          if_neg hc, List.map_nil, List.flatten_nil, List.nil_append,
          List.cons_append, List.singleton_append] at h
        have := (List.cons.inj h).1
        push_neg at hc
        exact absurd this hc.1
    | cons d s₂ =>
      by_cases hc : c = '"' ∨ c = '\\'
      · by_cases hd : d = '"' ∨ d = '\\'
        · have hec : escChar c = ['\\', c] := by simp [escChar, hc]
          have hed : escChar d = ['\\', d] := by simp [escChar, hd]
          simp only [escBody, List.map_cons, List.flatten_cons, hec, hed,
            List.cons_append, List.append_assoc] at h
          have h1 := (List.cons.inj h).2
          have hcd := (List.cons.inj h1).1
          have h2 := (List.cons.inj h1).2
          have := ih s₂ t₁ t₂ (by simpa [escBody] using h2)
          exact ⟨by rw [hcd, this.1], this.2⟩
        · have hec : escChar c = ['\\', c] := by simp [escChar, hc]
          have hed : escChar d = [d] := by simp [escChar, hd]
          simp only [escBody, List.map_cons, List.flatten_cons, hec, hed,
            List.cons_append, List.append_assoc] at h
          have := (List.cons.inj h).1
          push_neg at hd
          exact absurd this.symm hd.2
      · by_cases hd : d = '"' ∨ d = '\\'
        · have hec : escChar c = [c] := by simp [escChar, hc]
          have hed : escChar d = ['\\', d] := by simp [escChar, hd]
          simp only [escBody, List.map_cons, List.flatten_cons, hec, hed,
            List.cons_append, List.append_assoc] at h
          have := (List.cons.inj h).1
          push_neg at hc
          exact absurd this hc.2
        · have hec : escChar c = [c] := by simp [escChar, hc]
          have hed : escChar d = [d] := by simp [escChar, hd]
          simp only [escBody, List.map_cons, List.flatten_cons, hec, hed,
            List.cons_append, List.append_assoc] at h
          have hcd := (List.cons.inj h).1
          have h2 := (List.cons.inj h).2
          have := ih s₂ t₁ t₂ (by simpa [escBody] using h2)
          exact ⟨by rw [hcd, this.1], this.2⟩

/-- The JSON string encoder is a prefix code. -/
theorem encStrL_prefix_inj {s₁ s₂ t₁ t₂ : List Char}
    (h : encStrL s₁ ++ t₁ = encStrL s₂ ++ t₂) : s₁ = s₂ ∧ t₁ = t₂ := by
  simp only [encStrL, List.cons_append, List.append_assoc,
    List.singleton_append] at h
  have h2 := (List.cons.inj h).2
  exact escBody_quote_inj s₁ s₂ t₁ t₂ (by simpa [escBody] using h2)

/-- The JSON array body encoder is injective. -/
theorem encListGo_inj : ∀ l₁ l₂ : List (List Char),
    encListGo l₁ = encListGo l₂ → l₁ = l₂ := by
  intro l₁
  induction l₁ with
  | nil =>
    intro l₂ h
    cases l₂ with
    | nil => rfl
    | cons s r =>
      cases r with
      | nil => simp [encListGo, encStrL] at h
      | cons t r2 => simp [encListGo, encStrL] at h
  | cons s l ih =>
    intro l₂ h
    cases l₂ with
    | nil =>
      cases l with
      | nil => simp [encListGo, encStrL] at h
      | cons t r => simp [encListGo, encStrL] at h
    | cons s2 l2 =>
      cases l with
      | nil =>
        cases l2 with
        | nil =>
          simp only [encListGo] at h
          have h2 : encStrL s ++ ([] : List Char) =
              encStrL s2 ++ ([] : List Char) := by simpa using h
          rw [(encStrL_prefix_inj h2).1]
        | cons t2 r2 =>
          simp only [encListGo, List.append_assoc] at h
          have h2 : encStrL s ++ ([] : List Char) =
              encStrL s2 ++ (',' :: ' ' :: encListGo (t2 :: r2)) := by
            simpa using h
          exact absurd (encStrL_prefix_inj h2).2 (by simp)
      | cons t r =>
        cases l2 with
        | nil =>
          simp only [encListGo, List.append_assoc] at h
          have h2 : encStrL s ++ (',' :: ' ' :: encListGo (t :: r)) =
              encStrL s2 ++ ([] : List Char) := by
            simpa using h
          exact absurd (encStrL_prefix_inj h2).2 (by simp)
        | cons t2 r2 =>
          simp only [encListGo, List.append_assoc] at h
          have h2 : encStrL s ++ (',' :: ' ' :: encListGo (t :: r)) =
              encStrL s2 ++ (',' :: ' ' :: encListGo (t2 :: r2)) := by
            simpa using h
          have h3 := encStrL_prefix_inj h2
          have h4 : encListGo (t :: r) = encListGo (t2 :: r2) := by
            have := h3.2
            simpa using this
          rw [h3.1, ih (t2 :: r2) h4]

/-- `String.data` is injective. -/
theorem stringData_inj : Function.Injective String.data := by
  intro a b h
  cases a
  cases b
  simpa using congrArg String.mk h

/-- `jsonDumps` is injective. -/
theorem jsonDumps_inj {l₁ l₂ : List String}
    (h : jsonDumps l₁ = jsonDumps l₂) : l₁ = l₂ := by
  have hd := congrArg String.data h
  simp only [jsonDumps] at hd
  have h2 : encListGo (l₁.map String.data) ++ [']'] =
      encListGo (l₂.map String.data) ++ [']'] := by
    have := List.tail_eq_of_cons_eq hd
    simpa using this
  have h3 := List.append_left_injective [']'] h2
  have h4 := encListGo_inj _ _ h3
  exact List.map_injective_iff.mpr stringData_inj h4

/-- Sorting a permuted list gives the same output. -/
theorem pySorted_eq_of_perm {l₁ l₂ : List String} (h : List.Perm l₁ l₂) :
    pySortedStrings l₁ = pySortedStrings l₂ := by
  apply List.eq_of_perm_of_sorted
    (((List.perm_insertionSort strLe l₁).trans h).trans
      (List.perm_insertionSort strLe l₂).symm)
    (List.sorted_insertionSort strLe l₁)
    (List.sorted_insertionSort strLe l₂)

/-- Equal sorted outputs force permuted inputs. -/
theorem perm_of_pySorted_eq {l₁ l₂ : List String}
    (h : pySortedStrings l₁ = pySortedStrings l₂) : List.Perm l₁ l₂ := by
  have p1 := (List.perm_insertionSort strLe l₁).symm
  have p2 := List.perm_insertionSort strLe l₂
  have hmid : List.Perm (pySortedStrings l₁) (pySortedStrings l₂) := by
    rw [h]
  exact (p1.trans hmid).trans p2

/-- A change in exactly one of name/id/type (options unchanged) changes the
form-element hash. -/
theorem to_hash_ne {e e' : FormElement} (hopt : e'.options = e.options)
    (hne : (e'.name ≠ e.name ∧ e'.id = e.id ∧ e'.type = e.type) ∨
           (e'.name = e.name ∧ e'.id ≠ e.id ∧ e'.type = e.type) ∨
           (e'.name = e.name ∧ e'.id = e.id ∧ e'.type ≠ e.type)) :
    FormElement.to_hash e' ≠ FormElement.to_hash e := by
  intro h
  have hd := congrArg String.data h
  simp only [FormElement.to_hash, md5Hex, String.data_append, hopt,
    List.append_assoc] at hd
  rcases hne with ⟨hn, hi, ht⟩ | ⟨hn, hi, ht⟩ | ⟨hn, hi, ht⟩
  · rw [hi, ht] at hd
    exact hn (stringData_inj (List.append_left_injective _ hd))
  · rw [hn, ht] at hd
    have h2 := List.append_right_injective _ hd
    have h3 := List.append_right_injective _ h2
    exact hi (stringData_inj (List.append_left_injective _ h3))
  · rw [hn, hi] at hd
    have h2 := List.append_right_injective _ hd
    have h3 := List.append_right_injective _ h2
    have h4 := List.append_right_injective _ h3
    have h5 := List.append_right_injective _ h4
    exact ht (stringData_inj (List.append_left_injective _ h5))

/-- Replacing one element of a list by a different string changes the sorted
output. -/
theorem pySorted_ne_of_set {l : List String} {i : Nat} (h : i < l.length)
    {c' : String} (hne : c' ≠ l[i]) :
    pySortedStrings (l.set i c') ≠ pySortedStrings l := by
  intro heq
  have hp := perm_of_pySorted_eq heq
  have hset : l.set i c' = l.take i ++ c' :: l.drop (i + 1) := by
    rw [List.set_eq_take_append_cons_drop]
    simp [h]
  have hdecomp : l.take i ++ l[i] :: l.drop (i + 1) = l := by
    rw [← List.drop_eq_getElem_cons h, List.take_append_drop]
  obtain ⟨c, hc⟩ : ∃ c, c = l[i] := ⟨l[i], rfl⟩
  rw [← hc] at hne hdecomp
  have hcount := hp.count_eq c
  rw [hset] at hcount
  conv at hcount => rhs; rw [← hdecomp]
  simp [List.count_append, List.count_cons, hne, Ne.symm hne] at hcount

/-- Permutation invariance of the structural hash. -/
theorem calculate_hash_perm_invariant (tp₁ tp₂ : PageThumbprint)
    (hu : tp₁.url = tp₂.url)
    (h1 : tp₁.viewstate_present = tp₂.viewstate_present)
    (h2 : tp₁.viewstate_generator_present = tp₂.viewstate_generator_present)
    (h3 : tp₁.viewstate_generator_value = tp₂.viewstate_generator_value)
    (hf : List.Perm tp₁.form_elements tp₂.form_elements)
    (hp : List.Perm tp₁.products tp₂.products)
    (hd : tp₁.download_button_ids = tp₂.download_button_ids)
    (hr : tp₁.radio_button_ids = tp₂.radio_button_ids) :
    tp₁.calculate_hash = tp₂.calculate_hash := by
  have hE : pySortedStrings (tp₁.form_elements.map FormElement.to_hash) =
      pySortedStrings (tp₂.form_elements.map FormElement.to_hash) :=
    pySorted_eq_of_perm (hf.map _)
  have hP : pySortedStrings (tp₁.products.map ProductOpt.pyStr) =
      pySortedStrings (tp₂.products.map ProductOpt.pyStr) :=
    pySorted_eq_of_perm (hp.map _)
  have hPe : tp₁.products.isEmpty = tp₂.products.isEmpty := by
    cases hq : tp₂.products with
    | nil =>
      rw [hq] at hp
      simp [hp.eq_nil, hq]
    | cons x xs =>
      have hne : tp₁.products ≠ [] := by
        intro hnil
        rw [hnil] at hp
        have := hp.symm.eq_nil
        rw [hq] at this
        exact List.cons_ne_nil _ _ this
      simp [hq, List.isEmpty_iff, hne]
  simp only [PageThumbprint.calculate_hash, hu, h1, h2, h3, hE, hP, hPe, hd,
    hr]

/-- Sensitivity of the structural hash to a single field change. -/
theorem calculate_hash_single_change_ne (tp : PageThumbprint) (i : Nat)
    (h : i < tp.form_elements.length) (e' : FormElement)
    (hopt : e'.options = tp.form_elements[i].options)
    (hne : (e'.name ≠ tp.form_elements[i].name ∧
            e'.id = tp.form_elements[i].id ∧
            e'.type = tp.form_elements[i].type) ∨
           (e'.name = tp.form_elements[i].name ∧
            e'.id ≠ tp.form_elements[i].id ∧
            e'.type = tp.form_elements[i].type) ∨
           (e'.name = tp.form_elements[i].name ∧
            e'.id = tp.form_elements[i].id ∧
            e'.type ≠ tp.form_elements[i].type)) :
    ({tp with form_elements := tp.form_elements.set i e'}).calculate_hash ≠
      tp.calculate_hash := by
  intro hhash
  dsimp only [PageThumbprint.calculate_hash, sha256Hex] at hhash
  have hE := joinSep_middle_inj "|"
    [tp.url, pyStrBool tp.viewstate_present,
     pyStrBool tp.viewstate_generator_present,
     (match tp.viewstate_generator_value with | none => "" | some v => v)]
    (jsonDumps (pySortedStrings
      ((tp.form_elements.set i e').map FormElement.to_hash)))
    (jsonDumps (pySortedStrings (tp.form_elements.map FormElement.to_hash)))
    ((if tp.products.isEmpty then []
      else [jsonDumps (pySortedStrings (tp.products.map ProductOpt.pyStr))]) ++
     (if tp.download_button_ids.isEmpty then []
      else [jsonDumps (pySortedStrings tp.download_button_ids)]) ++
     (if tp.radio_button_ids.isEmpty then []
      else [jsonDumps (pySortedStrings tp.radio_button_ids)]))
    (by simpa [List.append_assoc] using hhash)
  have hsort := jsonDumps_inj hE
  rw [List.map_set] at hsort
  have hlen : i < (tp.form_elements.map FormElement.to_hash).length := by
    simpa using h
  have hneq : FormElement.to_hash e' ≠
      (tp.form_elements.map FormElement.to_hash)[i] := by
    rw [List.getElem_map]
    exact to_hash_ne hopt hne
  exact pySorted_ne_of_set hlen hneq hsort

/-- A key set difference is empty exactly when every key on the left occurs
on the right. -/
theorem keyDiff_eq_nil_iff {K : Type} [DecidableEq K] (a b : List K) :
    keyDiff a b = [] ↔ ∀ k ∈ a, k ∈ b := by
  unfold keyDiff
  rw [List.dedup_eq_nil, List.filter_eq_nil_iff]
  constructor
  · intro h k hk
    have := h k hk
    simpa using this
  · intro h k hk
    simpa using h k hk

/-- Self key set difference is empty. -/
theorem keyDiff_self {K : Type} [DecidableEq K] (l : List K) :
    keyDiff l l = [] :=
  (keyDiff_eq_nil_iff l l).mpr (fun _ hk => hk)

/-- Set equality of lists as a membership equivalence. -/
theorem listSetEqB_true_iff {K : Type} [DecidableEq K] (a b : List K) :
    listSetEqB a b = true ↔ ∀ x, x ∈ a ↔ x ∈ b := by
  unfold listSetEqB
  simp only [Bool.and_eq_true, List.all_eq_true]
  constructor
  · intro ⟨h1, h2⟩ x
    constructor
    · intro hx
      simpa using h1 x hx
    · intro hx
      simpa using h2 x hx
  · intro h
    constructor
    · intro x hx
      simp [(h x).mp hx]
    · intro x hx
      simp [(h x).mpr hx]

/-- Self set equality. -/
theorem listSetEqB_self {K : Type} [DecidableEq K] (l : List K) :
    listSetEqB l l = true :=
  (listSetEqB_true_iff l l).mpr (fun _ => Iff.rfl)

/-- A guarded singleton is empty exactly when its guard fails. -/
theorem ite_singleton_eq_nil_iff {α : Type} (c : Prop) [Decidable c] (x : α) :
    (if c then [x] else []) = [] ↔ ¬c := by
  split <;> simp [*]

/-- Comparing a thumbprint against a capture identical up to timestamp and
script list yields no differences at all. -/
theorem compare_same (tp : PageThumbprint) (ts : String)
    (js : List String) :
    compare_thumbprints tp
      { tp with timestamp := ts, javascript_files := js } = ⟨[], []⟩ := by
  simp [compare_thumbprints, keyDiff_self, listSetEqB_self]

/-- A guarded singleton is nonempty exactly when its guard holds. -/
theorem ite_singleton_ne_nil_iff {α : Type} (c : Prop) [Decidable c] (x : α) :
    (if c then [x] else []) ≠ [] ↔ c := by
  split <;> simp [*]

/-- Concatenation is nonempty exactly when a part is. -/
theorem append_ne_nil_iff {α : Type} (a b : List α) :
    a ++ b ≠ [] ↔ a ≠ [] ∨ b ≠ [] := by
  rw [Ne, List.append_eq_nil]
  tauto

/-- A key set difference is nonempty exactly when some element key on the
left is absent on the right. -/
theorem keyDiff_elementKeys_ne_nil_iff (xs ys : List FormElement) :
    keyDiff (elementKeys xs) (elementKeys ys) ≠ [] ↔
      ∃ e ∈ xs, (e.name, e.id, e.type) ∉ elementKeys ys := by
  rw [Ne, keyDiff_eq_nil_iff]
  push_neg
  constructor
  · intro ⟨k, hk, hnk⟩
    rcases List.mem_map.mp hk with ⟨e, he, hke⟩
    exact ⟨e, he, by rw [hke]; exact hnk⟩
  · intro ⟨e, he, hne⟩
    exact ⟨(e.name, e.id, e.type), List.mem_map.mpr ⟨e, he, rfl⟩, hne⟩

/-- List set equality is false exactly when membership differs somewhere. -/
theorem listSetEqB_false_iff {K : Type} [DecidableEq K] (a b : List K) :
    listSetEqB a b = false ↔ ¬∀ x, x ∈ a ↔ x ∈ b := by
  rw [← listSetEqB_true_iff]
  cases h : listSetEqB a b <;> simp [h]

/-- The full characterization of the critical and advisory classification
computed by `_compare_thumbprints`. -/
theorem compare_classification (stored current : PageThumbprint) :
    ((compare_thumbprints stored current).critical_changes ≠ [] ↔
      (stored.viewstate_present ≠ current.viewstate_present ∨
       stored.viewstate_generator_value ≠ current.viewstate_generator_value ∨
       (∃ e ∈ stored.form_elements,
         (e.name, e.id, e.type) ∉ elementKeys current.form_elements) ∨
       (stored.products ≠ [] ∧ current.products ≠ [] ∧
         ¬∀ v, v ∈ stored.products.map (fun p => p.value) ↔
            v ∈ current.products.map (fun p => p.value)) ∨
       (stored.download_button_ids ≠ [] ∧ current.download_button_ids ≠ [] ∧
         ¬∀ v, v ∈ stored.download_button_ids ↔
            v ∈ current.download_button_ids))) ∧
    ((compare_thumbprints stored current).warnings ≠ [] ↔
      ((∃ e ∈ current.form_elements,
         (e.name, e.id, e.type) ∉ elementKeys stored.form_elements) ∨
       stored.uses_dopostback ≠ current.uses_dopostback)) := by
  constructor
  · simp only [compare_thumbprints]
    rw [append_ne_nil_iff, append_ne_nil_iff, append_ne_nil_iff,
      append_ne_nil_iff, ite_singleton_ne_nil_iff, ite_singleton_ne_nil_iff,
      ite_singleton_ne_nil_iff, ite_singleton_ne_nil_iff,
      ite_singleton_ne_nil_iff, keyDiff_elementKeys_ne_nil_iff]
    simp only [Bool.and_eq_true, Bool.not_eq_true', List.isEmpty_eq_false,
      listSetEqB_false_iff, and_assoc, or_assoc]
  · simp only [compare_thumbprints]
    rw [append_ne_nil_iff, ite_singleton_ne_nil_iff,
      ite_singleton_ne_nil_iff, keyDiff_elementKeys_ne_nil_iff]

/-! ## Concrete instances used by the claim theorems -/

/-- A currency element: context with entity id and quarter date, unit `USD`,
payload `1000`. -/
def xbrlUsdItem : XbrlItem :=
  ⟨some "CI_12345_2024-03-31", some "USD", some "1000"⟩

/-- A pure-unit element with payload `0.5`. -/
def xbrlPureItem : XbrlItem :=
  ⟨some "CI_12345_2024-03-31", some "PURE", some "0.5"⟩

/-- A boolean element: payload `true`, no unit. -/
def xbrlBoolItem : XbrlItem :=
  ⟨some "CI_12345_2024-03-31", none, some "true"⟩

/-- An element whose context reference contains no `YYYY-MM-DD` pattern. -/
def xbrlNoDateItem : XbrlItem :=
  ⟨some "CI_12345_NODATE", some "USD", some "7"⟩

/-- A document holding a well-formed element followed by a no-date element. -/
def xbrlDocWithBadItem : XbrlDoc :=
  [("cc:RCON2170", .list [xbrlUsdItem, xbrlNoDateItem])]

/-- A document holding only the pure-unit element. -/
def xbrlDocPure : XbrlDoc :=
  [("uc:UBPR1", .list [xbrlPureItem])]

/-- The archive member containing the mixed document. -/
def xbrlMemberA : XbrlArchiveMember := ⟨"A_RSSD_1.xml", some xbrlDocWithBadItem⟩

/-- The archive member containing the pure document. -/
def xbrlMemberB : XbrlArchiveMember := ⟨"B_RSSD_2.xml", some xbrlDocPure⟩

/-! ## Claim theorems -/

/-- C1 (counterexample): the claim says an element whose context lacks a
date pattern is skipped as a per-item failure that does not abort the
containing document's other elements. On the archive member holding a valid
USD element and a no-date element, the valid element's record would then
survive — but the extractor produces no records at all for that member: the
failure raises `IndexError` out of `process_xbrl_item`, and the catch sits
at the archive-member level, discarding the whole document. -/
theorem C1_per_item_skip_counterexample :
    process_xml xbrlDocWithBadItem = .error .indexError ∧
    process_xbrl_file [xbrlMemberA] = [] ∧
    ([] : List (List RetRow)) ≠
      [[⟨"RCON2170", "12345", "2024-03-31", "int", .intData 1⟩]] := by
  refine ⟨by decide, by decide, by decide⟩

/-- C1 (amended): a USD element with text `1000` yields the record value 1
tagged `int`; a `PURE` element with text `0.5` yields the exact value 1/2
tagged `float`; a `true` text with no numeric unit yields boolean true; and
an element whose context lacks a `YYYY-MM-DD` pattern raises `IndexError`
inside the extractor, which is caught per archive member: the member's whole
document (its other elements included) is skipped, no exception escapes
`process_xbrl_file`, and the remaining members are still processed. -/
theorem C1_record_extractor_amended :
    (process_xml [("cc:RCON2170", .list [xbrlUsdItem])] =
      .ok [⟨"RCON2170", "12345", "2024-03-31", "int", .intData 1⟩]) ∧
    (process_xml [("uc:UBPR1", .list [xbrlPureItem])] =
      .ok [⟨"UBPR1", "12345", "2024-03-31", "float",
        .floatData (.num ⟨5, 10⟩)⟩]) ∧
    PyRat.toRat ⟨5, 10⟩ = 1 / 2 ∧
    (process_xml [("cc:RCFDB528", .list [xbrlBoolItem])] =
      .ok [⟨"RCFDB528", "12345", "2024-03-31", "bool",
        .boolData (.bool true)⟩]) ∧
    (process_one_item "cc:RCON2170" xbrlNoDateItem = .error .indexError) ∧
    (process_xml xbrlDocWithBadItem = .error .indexError) ∧
    (process_xbrl_file [xbrlMemberA, xbrlMemberB] =
      [[⟨"UBPR1", "12345", "2024-03-31", "float",
        .floatData (.num ⟨5, 10⟩)⟩]]) := by
  refine ⟨by decide, by decide, ?_, by decide, by decide, by decide, by decide⟩
  norm_num [PyRat.toRat]

/-- A baseline thumbprint of the bulk-download page used in concrete
statements. -/
def tpBaseline : PageThumbprint :=
  { url := "https://cdr.ffiec.gov/public/pws/downloadbulkdata.aspx"
    timestamp := "2025-08-08T00:00:00"
    viewstate_present := true
    viewstate_generator_present := true
    viewstate_generator_value := some "651D9554"
    form_elements := [⟨"ListBox1", "ListBox1", "select",
      some ["ReportingSeriesSinglePeriod"]⟩,
      ⟨"FormatType", "TSVRadioButton", "radio", none⟩]
    products := [⟨"ReportingSeriesSinglePeriod", "Call Reports"⟩]
    download_button_ids := ["Download_0"]
    radio_button_ids := ["TSVRadioButton", "XBRLRadiobutton"] }

/-- A fresh capture identical to the baseline except that its product list
is empty: the product selector disappeared from the page. -/
def tpNoProducts : PageThumbprint := { tpBaseline with products := [] }

set_option maxRecDepth 4000 in
/-- C2 (counterexample): the set of product selector values changed (from a
one-element set to the empty set), yet the drift validator reports no
critical change at all — the product comparison is guarded by a truthiness
test on both lists, so a vanished product list is silently ignored. -/
theorem C2_product_set_change_counterexample :
    (tpBaseline.products.map (fun p => p.value) ≠
      tpNoProducts.products.map (fun p => p.value)) ∧
    (compare_thumbprints tpBaseline tpNoProducts).critical_changes = [] ∧
    validateOutcome
      (validate (storeSave (fun _ => none) "bulk_download" tpBaseline)
        "bulk_download" tpNoProducts) =
      some { valid := true, warnings := [],
             current_hash := tpNoProducts.calculate_hash,
             stored_hash := some tpBaseline.calculate_hash,
             last_validated := "2025-08-08T00:00:00" } := by
  refine ⟨by decide, by decide, by decide⟩

/-- C2 (amended): the drift validator classifies as critical exactly these
differences — the token-presence flag flips, the token-generator value
changes, a previously-seen form element (identified by name+identifier+kind)
is missing, the set of product selector values differs *while both captures
have a nonempty product list*, or the set of download-trigger identifiers
differs *while both captures have a nonempty identifier list*; and it
classifies as advisory exactly the appearance of new form elements and a
flip of the client-side postback flag. -/
theorem C2_drift_critical_classification_amended :
    ∀ stored current : PageThumbprint,
    ((compare_thumbprints stored current).critical_changes ≠ [] ↔
      (stored.viewstate_present ≠ current.viewstate_present ∨
       stored.viewstate_generator_value ≠ current.viewstate_generator_value ∨
       (∃ e ∈ stored.form_elements,
         (e.name, e.id, e.type) ∉ elementKeys current.form_elements) ∨
       (stored.products ≠ [] ∧ current.products ≠ [] ∧
         ¬∀ v, v ∈ stored.products.map (fun p => p.value) ↔
            v ∈ current.products.map (fun p => p.value)) ∨
       (stored.download_button_ids ≠ [] ∧ current.download_button_ids ≠ [] ∧
         ¬∀ v, v ∈ stored.download_button_ids ↔
            v ∈ current.download_button_ids))) ∧
    ((compare_thumbprints stored current).warnings ≠ [] ↔
      ((∃ e ∈ current.form_elements,
         (e.name, e.id, e.type) ∉ elementKeys stored.form_elements) ∨
       stored.uses_dopostback ≠ current.uses_dopostback)) :=
  fun stored current => compare_classification stored current

/-- C7: the structural hash is invariant under any reordering of the
form-element and product lists and independent of the referenced script
paths (and of the capture timestamp), and it changes whenever a single form
element's name, identifier, or kind changes (the other fields of that
element unchanged). -/
theorem C7_hash_invariance_and_sensitivity :
    (∀ tp₁ tp₂ : PageThumbprint,
      tp₁.url = tp₂.url →
      tp₁.viewstate_present = tp₂.viewstate_present →
      tp₁.viewstate_generator_present = tp₂.viewstate_generator_present →
      tp₁.viewstate_generator_value = tp₂.viewstate_generator_value →
      List.Perm tp₁.form_elements tp₂.form_elements →
      List.Perm tp₁.products tp₂.products →
      tp₁.download_button_ids = tp₂.download_button_ids →
      tp₁.radio_button_ids = tp₂.radio_button_ids →
      tp₁.calculate_hash = tp₂.calculate_hash) ∧
    (∀ (tp : PageThumbprint) (i : Nat) (h : i < tp.form_elements.length)
      (e' : FormElement),
      e'.options = tp.form_elements[i].options →
      ((e'.name ≠ tp.form_elements[i].name ∧ e'.id = tp.form_elements[i].id ∧
        e'.type = tp.form_elements[i].type) ∨
       (e'.name = tp.form_elements[i].name ∧ e'.id ≠ tp.form_elements[i].id ∧
        e'.type = tp.form_elements[i].type) ∨
       (e'.name = tp.form_elements[i].name ∧ e'.id = tp.form_elements[i].id ∧
        e'.type ≠ tp.form_elements[i].type)) →
      ({tp with form_elements := tp.form_elements.set i e'}).calculate_hash ≠
        tp.calculate_hash) :=
  ⟨calculate_hash_perm_invariant, calculate_hash_single_change_ne⟩

/-- The first form element of the baseline thumbprint. -/
def feListBox : FormElement :=
  ⟨"ListBox1", "ListBox1", "select", some ["ReportingSeriesSinglePeriod"]⟩

/-- The second form element of the baseline thumbprint. -/
def feFormat : FormElement :=
  ⟨"FormatType", "TSVRadioButton", "radio", none⟩

/-- A renamed copy of the first form element. -/
def feRenamed : FormElement :=
  ⟨"ListBox9", "ListBox1", "select", some ["ReportingSeriesSinglePeriod"]⟩

/-- The baseline with its form elements swapped and its script list and
timestamp changed. -/
def tpPermuted : PageThumbprint :=
  { tpBaseline with
    form_elements := [feFormat, feListBox]
    javascript_files := ["new.js"]
    timestamp := "2025-08-09T00:00:00" }

set_option maxRecDepth 4000 in
/-- Witness for C7 at concrete thumbprints. -/
theorem C7_hash_invariance_and_sensitivity_witness :
    tpBaseline.calculate_hash = tpPermuted.calculate_hash ∧
    ({ tpBaseline with form_elements :=
        tpBaseline.form_elements.set 0 feRenamed }).calculate_hash ≠
      tpBaseline.calculate_hash :=
  ⟨C7_hash_invariance_and_sensitivity.1 tpBaseline tpPermuted rfl rfl rfl rfl
    (List.Perm.swap feFormat feListBox [])
    (List.Perm.refl tpBaseline.products) rfl rfl,
   C7_hash_invariance_and_sensitivity.2 tpBaseline 0 (by decide) feRenamed
    (by decide) (Or.inl ⟨by decide, by decide, by decide⟩)⟩

/-- A `validate` call that returns normally always reports validity. -/
theorem validate_ok_valid (store : ThumbprintStore) (cat : String)
    (cur : PageThumbprint) (st' : ThumbprintStore) (r : ValidationResult)
    (h : validate store cat cur = .ok (st', r)) : r.valid = true := by
  unfold validate at h
  split at h
  · split at h
    · exact absurd h (by simp)
    · rename_i hc
      have hp := Except.ok.inj h
      have hr := congrArg Prod.snd hp
      simp only [Prod.snd] at hr
      push_neg at hc
      rw [← hr]
      simp [hc]
  · have hp := Except.ok.inj h
    have hr := congrArg Prod.snd hp
    simp only [Prod.snd] at hr
    rw [← hr]

/-- C10: whenever `validate` returns normally its result reports
`valid = true` (on both the baseline and the first-run paths) — a false
validity value never comes out of `validate` itself; in `validate_all`, an
entry reports `valid = false` exactly when it is the per-category failure
entry synthesized from a raised `WebpageChangeException`. -/
theorem C10_validate_never_returns_invalid :
    (∀ (store : ThumbprintStore) (cat : String) (cur : PageThumbprint)
      (st' : ThumbprintStore) (r : ValidationResult),
      validate store cat cur = .ok (st', r) → r.valid = true) ∧
    (∀ (store : ThumbprintStore) (caps : String → PageThumbprint)
      (cat : String) (res : CatResult),
      (cat, res) ∈ (validate_all store caps).2 →
      (res.valid = false ↔ ∃ e, res = CatResult.failure e)) := by
  constructor
  · exact validate_ok_valid
  · intro store caps cat res hmem
    constructor
    · intro hval
      simp only [validate_all, KNOWN_THUMBPRINT_CATEGORIES,
        List.foldl] at hmem
      rcases h1 : validate store "bulk_download" (caps "bulk_download") with
        ⟨e1, s1⟩ | ⟨s1, r1⟩ <;> rw [h1] at hmem <;>
      rcases h2 : validate s1 "taxonomy" (caps "taxonomy") with
        ⟨e2, s2⟩ | ⟨s2, r2⟩ <;> rw [h2] at hmem <;>
      rcases h3 : validate s2 "bhc_financial" (caps "bhc_financial") with
        ⟨e3, s3⟩ | ⟨s3, r3⟩ <;> rw [h3] at hmem <;>
      simp only [List.nil_append, List.cons_append, List.mem_cons,
        List.not_mem_nil, or_false, Prod.mk.injEq] at hmem <;>
      rcases hmem with ⟨_, hres⟩ | ⟨_, hres⟩ | ⟨_, hres⟩ <;>
        subst hres <;>
        first
          | exact ⟨_, rfl⟩
          | (exact absurd hval (by
              simp only [CatResult.valid, Bool.not_eq_false]
              first
                | exact validate_ok_valid _ _ _ _ _ h1
                | exact validate_ok_valid _ _ _ _ _ h2
                | exact validate_ok_valid _ _ _ _ _ h3))
    · intro ⟨e, he⟩
      rw [he]
      rfl

/-- The structural hash ignores the capture timestamp and the script
list. -/
theorem calculate_hash_timestamp_js_invariant (tp : PageThumbprint)
    (ts : String) (js : List String) :
    ({ tp with timestamp := ts, javascript_files := js } :
      PageThumbprint).calculate_hash = tp.calculate_hash := rfl

/-- C5: for a never-seen page category the first `validate` call reports
`valid = true` with the first-run advisory and persists the capture as the
baseline; a second call against an unchanged source (same structural fields;
only the capture timestamp and the script list, which are excluded from the
hash, may differ) reports `valid = true` with no warnings and with
`stored_hash` equal to `current_hash`. -/
theorem C5_first_run_then_stable (store : ThumbprintStore) (cat : String)
    (cur : PageThumbprint) (ts : String) (js : List String)
    (h : store cat = none) :
    validateOutcome (validate store cat cur) =
      some { valid := true, warnings := [ChangeMsg.firstRun],
             current_hash := cur.calculate_hash, stored_hash := none,
             last_validated := cur.timestamp } ∧
    storeAfter (validate store cat cur) cat = some cur ∧
    validateOutcome (validate (storeAfter (validate store cat cur)) cat
        { cur with timestamp := ts, javascript_files := js }) =
      some { valid := true, warnings := [],
             current_hash := cur.calculate_hash,
             stored_hash := some cur.calculate_hash,
             last_validated := cur.timestamp } := by
  have h1 : validate store cat cur =
      .ok (storeSave store cat cur,
        { valid := true, warnings := [ChangeMsg.firstRun],
          current_hash := cur.calculate_hash, stored_hash := none,
          last_validated := cur.timestamp }) := by
    unfold validate
    rw [h]
  refine ⟨by rw [h1]; rfl, by rw [h1]; simp [storeAfter, storeSave], ?_⟩
  have h2 : storeAfter (validate store cat cur) = storeSave store cat cur := by
    rw [h1]
    rfl
  rw [h2]
  have h3 : (storeSave store cat cur) cat = some cur := by
    simp [storeSave]
  unfold validate
  simp only [h3]
  rw [compare_same]
  simp [validateOutcome, calculate_hash_timestamp_js_invariant]

/-- Witness for C5: the empty store has no baseline for `bulk_download`, and
the two `validate` calls behave as stated on a concrete thumbprint. -/
theorem C5_first_run_then_stable_witness :
    ((fun _ => none : ThumbprintStore) "bulk_download" = none) ∧
    (validateOutcome (validate (fun _ => none) "bulk_download" tpBaseline) =
      some { valid := true, warnings := [ChangeMsg.firstRun],
             current_hash := tpBaseline.calculate_hash, stored_hash := none,
             last_validated := tpBaseline.timestamp } ∧
     storeAfter (validate (fun _ => none) "bulk_download" tpBaseline)
       "bulk_download" = some tpBaseline ∧
     validateOutcome
       (validate (storeAfter (validate (fun _ => none) "bulk_download"
           tpBaseline)) "bulk_download"
         { tpBaseline with
           timestamp := "2025-08-09T00:00:00"
           javascript_files := ["a.js"] }) =
      some { valid := true, warnings := [],
             current_hash := tpBaseline.calculate_hash,
             stored_hash := some tpBaseline.calculate_hash,
             last_validated := tpBaseline.timestamp }) :=
  ⟨rfl, C5_first_run_then_stable (fun _ => none) "bulk_download" tpBaseline
    "2025-08-09T00:00:00" ["a.js"] rfl⟩

/-- C6: when a baseline already exists for the page category, `validate`
never writes to the baseline store — neither on the critical-change
(exception) path nor on the success path; only the first-run path writes. -/
theorem C6_baseline_never_overwritten (store : ThumbprintStore) (cat : String)
    (cur stored : PageThumbprint) (h : store cat = some stored) :
    storeAfter (validate store cat cur) = store := by
  unfold validate
  simp only [h]
  split <;> rfl

/-- Witness for C6: a stored baseline plus a capture with critical changes
(the generator value changed) and a capture with no changes both leave the
store untouched. -/
theorem C6_baseline_never_overwritten_witness :
    (storeSave (fun _ => none) "bulk_download" tpBaseline) "bulk_download" =
      some tpBaseline ∧
    storeAfter (validate (storeSave (fun _ => none) "bulk_download"
        tpBaseline) "bulk_download"
      { tpBaseline with viewstate_generator_value := some "CHANGED" }) =
      storeSave (fun _ => none) "bulk_download" tpBaseline :=
  ⟨rfl, C6_baseline_never_overwritten _ "bulk_download"
    { tpBaseline with viewstate_generator_value := some "CHANGED" }
    tpBaseline rfl⟩

/-- Witness for C10: on a first-run call `validate` returns normally and the
returned result reports `valid = true`. -/
theorem C10_validate_never_returns_invalid_witness :
    validate (fun _ => none) "bulk_download" tpBaseline =
      .ok (storeSave (fun _ => none) "bulk_download" tpBaseline,
        { valid := true, warnings := [ChangeMsg.firstRun],
          current_hash := tpBaseline.calculate_hash, stored_hash := none,
          last_validated := tpBaseline.timestamp }) ∧
    ValidationResult.valid
      { valid := true, warnings := [ChangeMsg.firstRun],
        current_hash := tpBaseline.calculate_hash, stored_hash := none,
        last_validated := tpBaseline.timestamp } = true :=
  ⟨rfl, C10_validate_never_returns_invalid.1 (fun _ => none) "bulk_download"
    tpBaseline (storeSave (fun _ => none) "bulk_download" tpBaseline) _ rfl⟩

/-- C8: the expected filename is a pure function of product, period and
format; for `CALL_SINGLE` + XBRL + period `03/31/2024` it equals
`FFIEC CDR Call Bulk XBRL 03312024.zip` regardless of the period's protocol
form value. -/
theorem C8_expected_filename (v : String) :
    DownloadRequest.get_expected_filename
      ⟨Product.CALL_SINGLE, ⟨v, "03/31/2024"⟩, FileFormat.XBRL⟩ =
      some "FFIEC CDR Call Bulk XBRL 03312024.zip" := rfl

/-- C9: the selection steps refuse to run out of order — with no selected
product, `select_period` raises `ValueError` (`"Must select product first"`)
with the state unchanged and no POST issued; and whenever the product or the
period is missing, `select_format` raises `ValueError`
(`"Must select product and period first"`) with the state unchanged and no
POST issued. -/
theorem C9_sequence_errors :
    (∀ (srv : Server) (st : SessionState) (input : PeriodInput),
      st.current_product = none →
      select_period srv st input =
        .err (.valueError "Must select product first") st []) ∧
    (∀ (srv : Server) (st : SessionState) (format : FileFormat),
      st.current_product = none ∨ st.current_period = none →
      select_format srv st format =
        .err (.valueError "Must select product and period first") st []) := by
  constructor
  · intro srv st input h
    unfold select_period
    rw [h]
  · intro srv st format h
    unfold select_format
    rcases hp : st.current_product with _ | prod
    · rfl
    · rcases hq : st.current_period with _ | per
      · rfl
      · rcases h with h | h
        · rw [hp] at h
          exact absurd h (by simp)
        · rw [hq] at h
          exact absurd h (by simp)

/-- A session state with a selected product and two available periods. -/
def witStateWithProduct : SessionState :=
  ⟨some "vs", some "gen", some Product.CALL_SINGLE, none,
    [⟨"146", "03/31/2024"⟩, ⟨"145", "12/31/2023"⟩], none, none⟩

/-- A session state before any selection. -/
def witFreshState : SessionState :=
  ⟨none, none, none, none, [], none, none⟩

/-- A server whose responses never matter (the error paths return before any
network call). -/
def witInertServer : Server :=
  ⟨⟨"", false⟩, fun _ => ⟨"", false⟩⟩

/-- Witness for C9 at concrete states. -/
theorem C9_sequence_errors_witness :
    witFreshState.current_product = none ∧
    select_period witInertServer witFreshState (.str "03/31/2024") =
      .err (.valueError "Must select product first") witFreshState [] ∧
    select_format witInertServer witFreshState FileFormat.XBRL =
      .err (.valueError "Must select product and period first")
        witFreshState [] ∧
    witStateWithProduct.current_period = none ∧
    select_format witInertServer witStateWithProduct FileFormat.XBRL =
      .err (.valueError "Must select product and period first")
        witStateWithProduct [] :=
  ⟨rfl,
   C9_sequence_errors.1 witInertServer witFreshState (.str "03/31/2024") rfl,
   C9_sequence_errors.2 witInertServer witFreshState FileFormat.XBRL
     (Or.inl rfl),
   rfl,
   C9_sequence_errors.2 witInertServer witStateWithProduct FileFormat.XBRL
     (Or.inr rfl)⟩

/-- C4: with a product selected, resolving a date string (slash-form
directly, or an eight-digit key normalized to slash-form) that matches no
available period makes `select_period` raise `ValueError`
(`"Period ... not found in available periods"`) with the session state
unchanged and no POST issued. -/
theorem C4_period_not_found (srv : Server) (st : SessionState)
    (prod : Product) (s ds : String)
    (hprod : st.current_product = some prod)
    (hne : st.available_periods ≠ [])
    (hnorm : normalizeDateStr s = .ok ds)
    (hmiss : ∀ p ∈ st.available_periods, p.date_str ≠ ds) :
    select_period srv st (.str s) =
      .err (.valueError ("Period " ++ ds ++ " not found in available periods"))
        st [] := by
  have hfind : find_period_by_date st none s =
      .error (.valueError ("Period " ++ ds ++
        " not found in available periods")) := by
    unfold find_period_by_date
    have hie : st.available_periods.isEmpty = false :=
      List.isEmpty_eq_false.mpr hne
    simp only [hie, Bool.false_eq_true, if_false, hnorm]
    have hfindnone : st.available_periods.find?
        (fun p => p.date_str == ds) = none := by
      rw [List.find?_eq_none]
      intro p hp
      simpa using hmiss p hp
    rw [hfindnone]
  unfold select_period
  rw [hprod]
  simp only [hfind]

/-- Witness for C4: a missing slash-form date and a missing (valid)
eight-digit date key both produce the not-found error against a concrete
period list, leaving the state untouched. -/
theorem C4_period_not_found_witness :
    witStateWithProduct.current_product = some Product.CALL_SINGLE ∧
    witStateWithProduct.available_periods ≠ [] ∧
    normalizeDateStr "20230630" = .ok "06/30/2023" ∧
    (∀ p ∈ witStateWithProduct.available_periods,
      p.date_str ≠ "06/30/2023") ∧
    select_period witInertServer witStateWithProduct (.str "20230630") =
      .err (.valueError
        "Period 06/30/2023 not found in available periods")
        witStateWithProduct [] :=
  ⟨rfl, by decide, by decide, by decide,
   C4_period_not_found witInertServer witStateWithProduct Product.CALL_SINGLE
     "20230630" "06/30/2023" rfl (by decide) (by decide) (by decide)⟩

/-- A server answering every POST with a period selector that contains no
options, as a non-HTML response. -/
def cexEmptySelectorServer : Server :=
  ⟨⟨"", false⟩, fun _ =>
    ⟨"<select name=\"ctl00$MainContentHolder$DatesDropDownList\"></select>",
     false⟩⟩

/-- C3 (counterexample): when the period selector markup is present but
holds no options, `select_product` does not fail — it returns the empty
period list as a success. -/
theorem C3_empty_period_list_counterexample :
    select_product cexEmptySelectorServer witStateWithProduct
      Product.CALL_SINGLE =
      .ok [] { witStateWithProduct with
               current_product := some Product.CALL_SINGLE
               available_periods := [] }
        [selectProductData witStateWithProduct Product.CALL_SINGLE] := by
  decide

/-- C3 (amended): with a live session, `select_product` raises `ValueError`
(`"No dates found for product ..."`) exactly when the period selector markup
is missing from the response; when the markup is present it returns the
option list parsed from it, in document order — including the empty list,
which is returned as a success rather than an error. -/
theorem C3_select_product_amended (srv : Server) (st : SessionState)
    (product : Product) (st2 : SessionState) (resp : HttpResponse)
    (htr : viewstateTruthy st = true)
    (hpost : client_post srv st (selectProductData st product) =
      .ok (st2, resp)) :
    (extractDatesSelect resp.text = none →
      select_product srv st product =
        .err (.valueError ("No dates found for product " ++
          product.display_name))
          { st2 with current_product := some product }
          [selectProductData st product]) ∧
    (∀ content, extractDatesSelect resp.text = some content →
      select_product srv st product =
        .ok ((findOptions content).map
            (fun vt => ReportingPeriod.mk vt.1 vt.2))
          { st2 with
            current_product := some product
            available_periods := (findOptions content).map
              (fun vt => ReportingPeriod.mk vt.1 vt.2) }
          [selectProductData st product]) := by
  constructor
  · intro hext
    unfold select_product
    simp only [htr, if_true, hpost, hext, List.nil_append]
  · intro content hext
    unfold select_product
    simp only [htr, if_true, hpost, hext, List.nil_append]

/-- A server answering with a period selector holding two options. -/
def witPeriodServer : Server :=
  ⟨⟨"", false⟩, fun _ =>
    ⟨"<select name=\"ctl00$MainContentHolder$DatesDropDownList\"><option value=\"146\">03/31/2024</option><option value=\"145\">12/31/2023</option></select>",
     false⟩⟩

/-- A server answering markup without the period selector. -/
def witNoSelectorServer : Server :=
  ⟨⟨"", false⟩, fun _ => ⟨"<html><body>maintenance</body></html>", false⟩⟩

/-- Witness for C3 (amended) at concrete servers: the missing-markup error
and the parsed two-option success. -/
theorem C3_select_product_amended_witness :
    viewstateTruthy witStateWithProduct = true ∧
    select_product witNoSelectorServer witStateWithProduct
      Product.CALL_SINGLE =
      .err (.valueError
        "No dates found for product Call Reports -- Single Period")
        { witStateWithProduct with
          current_product := some Product.CALL_SINGLE }
        [selectProductData witStateWithProduct Product.CALL_SINGLE] ∧
    select_product witPeriodServer witStateWithProduct Product.CALL_SINGLE =
      .ok [⟨"146", "03/31/2024"⟩, ⟨"145", "12/31/2023"⟩]
        { witStateWithProduct with
          current_product := some Product.CALL_SINGLE
          available_periods :=
            [⟨"146", "03/31/2024"⟩, ⟨"145", "12/31/2023"⟩] }
        [selectProductData witStateWithProduct Product.CALL_SINGLE] := by
  refine ⟨rfl, ?_, ?_⟩
  · exact (C3_select_product_amended witNoSelectorServer witStateWithProduct
      Product.CALL_SINGLE witStateWithProduct
      (witNoSelectorServer.post
        (selectProductData witStateWithProduct Product.CALL_SINGLE))
      rfl rfl).1 (by decide)
  · have h := (C3_select_product_amended witPeriodServer witStateWithProduct
      Product.CALL_SINGLE witStateWithProduct
      (witPeriodServer.post
        (selectProductData witStateWithProduct Product.CALL_SINGLE))
      rfl rfl).2
      "<option value=\"146\">03/31/2024</option><option value=\"145\">12/31/2023</option>"
      (by decide)
    rw [h]
    decide
